import Mathlib

/-!
Verification development for the AstralStream remediation pipeline
(`astralstream-agent-team.py` and `astralstream-elite-agent.py`).

The Python source is shallowly embedded: a project tree is a finite map
from paths (component lists, relative to the project root) to file
contents plus a set of registered directories; filesystem writes run in
a state-and-error monad `PyM` mirroring Python exceptions (a write to a
path in `locked` raises, modelling a permission error).  The large
string payloads the agents emit are abbreviated to short constants that
preserve every substring the pipeline itself tests for
(`CertificatePinner`, `Cipher`, `companion object`, package lines, …);
the spec declares the literal payload text out of scope.
-/

namespace AstralTeam

abbrev Path := List String

/-!
String primitives.  The corresponding Lean library functions are
implemented by well-founded recursion over byte positions and do not
reduce definitionally, so the Python string operations are embedded
with structurally recursive equivalents over character lists.
-/

/-- `pat` occurs as a contiguous sublist of `hay`. -/
def listHasInfix (hay pat : List Char) : Bool :=
  match hay with
  | [] => pat.isEmpty
  | _ :: rest => pat.isPrefixOf hay || listHasInfix rest pat

/-- Left-to-right, non-overlapping replacement on character lists
(Python `str.replace` for a nonempty pattern).  Structural recursion on
a fuel bound (`hay.length` always suffices, since each step consumes at
least one character) keeps the function definitionally reducible. -/
def listReplaceAux : Nat → List Char → List Char → List Char → List Char
  | 0, hay, _, _ => hay
  | _ + 1, [], _, _ => []
  | fuel + 1, c :: rest, pat, rep =>
    if pat ≠ [] ∧ pat.isPrefixOf (c :: rest) then
      rep ++ listReplaceAux fuel (rest.drop (pat.length - 1)) pat rep
    else
      c :: listReplaceAux fuel rest pat rep

def listReplace (hay pat rep : List Char) : List Char :=
  listReplaceAux hay.length hay pat rep

/-- Split on a nonempty separator (Python `str.split(sep)`), with the
same fuel scheme. -/
def listSplitAux : Nat → List Char → List Char → List Char → List (List Char)
  | 0, _, _, acc => [acc.reverse]
  | _ + 1, [], _, acc => [acc.reverse]
  | fuel + 1, c :: rest, sep, acc =>
    if sep ≠ [] ∧ sep.isPrefixOf (c :: rest) then
      acc.reverse :: listSplitAux fuel (rest.drop (sep.length - 1)) sep []
    else
      listSplitAux fuel rest sep (c :: acc)

def listSplit (hay sep acc : List Char) : List (List Char) :=
  listSplitAux hay.length hay sep acc

def isSpaceChar (c : Char) : Bool :=
  c = ' ' || c = '\t' || c = '\n' || c = '\r'

def strOfList (l : List Char) : String := String.mk l

def strReplace (hay pat rep : String) : String :=
  strOfList (listReplace hay.toList pat.toList rep.toList)

def strSplit (hay sep : String) : List String :=
  (listSplit hay.toList sep.toList []).map strOfList

/-- Python `str.strip()`. -/
def strTrim (s : String) : String :=
  strOfList (((s.toList.dropWhile isSpaceChar).reverse.dropWhile isSpaceChar).reverse)

def strStarts (s pat : String) : Bool := pat.toList.isPrefixOf s.toList

def strEnds (s pat : String) : Bool := pat.toList.isSuffixOf s.toList

def strLen (s : String) : Nat := s.toList.length

def strIntercalate (sep : String) : List String → String
  | [] => ""
  | [x] => x
  | x :: rest => x ++ sep ++ strIntercalate sep rest

/-- `pat` occurs as a substring of `hay` (Python `pat in hay`). -/
def strHas (hay pat : String) : Bool :=
  listHasInfix hay.toList pat.toList

/-- Number of non-overlapping occurrences of `pat` in `hay`, scanning from
the left (Python `hay.count(pat)` for nonempty `pat`), with the same
fuel scheme. -/
def countSubAux : Nat → List Char → List Char → Nat
  | 0, _, _ => 0
  | _ + 1, [], _ => 0
  | fuel + 1, c :: rest, pat =>
    if pat ≠ [] ∧ pat.isPrefixOf (c :: rest) then
      1 + countSubAux fuel (rest.drop (pat.length - 1)) pat
    else
      countSubAux fuel rest pat

def countSub (hay pat : List Char) : Nat :=
  countSubAux hay.length hay pat

/-- Python `hay.count(pat)` on strings. -/
def strCount (hay pat : String) : Nat := countSub hay.toList pat.toList

/-- Python `Path.stem`: the final component without its last suffix. -/
def stem (s : String) : String :=
  let parts := strSplit s "."
  if parts.length ≤ 1 then s else strIntercalate "." parts.dropLast

/-- Final path component (the file name). -/
def fileName (p : Path) : String := p.getLast?.getD ""

/-- `str(path)` of the source, with the project-root prefix omitted. -/
def pathStr (p : Path) : String := strIntercalate "/" p

/-- All nonempty prefixes of a path, shortest first (the directory and its
ancestors registered by `mkdir(parents=True)`). -/
def pathPrefixes (p : Path) : List Path :=
  (List.range p.length).map (fun i => p.take (i + 1))

/-- The shared mutable project tree (the FileTreeResource).  `dirs` holds
directories registered by `mkdir`; `files` maps paths to contents in
creation order; `locked` models paths the filesystem refuses to write
(a permission error), used to inject resource failures. -/
structure FileTree where
  dirs : List Path
  files : List (Path × String)
  locked : List Path
deriving DecidableEq, Repr

def emptyTree : FileTree := ⟨[], [], []⟩

/-- Update-or-append an association (what a filesystem write does). -/
def setFile : List (Path × String) → Path → String → List (Path × String)
  | [], p, c => [(p, c)]
  | (q, d) :: rest, p, c =>
    if q = p then (p, c) :: rest else (q, d) :: setFile rest p c

def FileTree.readFile (t : FileTree) (p : Path) : Option String :=
  (t.files.find? (fun f => f.1 = p)).map (fun f => f.2)

/-- `Path.exists()`: a registered directory or a present file. -/
def FileTree.pathExists (t : FileTree) (p : Path) : Bool :=
  t.dirs.contains p || t.files.any (fun f => f.1 = p)

/-- `rglob(*<suffix>)` restricted to files: paths (with contents) whose
file name ends with `suffix`, in creation order. -/
def FileTree.globSuffix (t : FileTree) (suffix : String) : List (Path × String) :=
  t.files.filter (fun f => strEnds (fileName f.1) suffix)

/-- `rglob(*<mid>*<suffix>)`: file name contains `mid` and ends with
`suffix` (Python matches the pattern against the name only). -/
def FileTree.globNameHas (t : FileTree) (mid suffix : String) : List (Path × String) :=
  t.files.filter (fun f =>
    strHas (fileName f.1) mid && strEnds (fileName f.1) suffix)

/-- `"/test/" in str(f)`: the component appears in a non-final position
(every non-final component of an absolute path is slash-delimited). -/
def pathHasDir (p : Path) (d : String) : Bool := p.dropLast.contains d

/-- One entry of the modification ledger (`add_modification`); the
wall-clock timestamp of the source is not modelled. -/
structure Modification where
  file : String
  description : String
deriving DecidableEq, Repr

structure FixOutcome where
  fixed : Nat
  total : Nat
deriving DecidableEq, Repr

/-- An issue record; the Python dicts carry different keys per agent, all
collected here with inert defaults. -/
structure Issue where
  type : String
  path : Path := []
  source : Path := []
  test_path : Path := []
  file : Path := []
  severity : String := ""
  count : Nat := 0
  packages : List String := []
deriving DecidableEq, Repr

/-- Per-agent mutable bookkeeping mirrored from `AgentBase`. -/
structure AgentSt where
  issues_found : List Issue
  modifications_made : List Modification
deriving DecidableEq, Repr

/-- The state a fix phase threads: the shared tree plus the acting
agent's `modifications_made`. -/
structure PyState where
  tree : FileTree
  mods : List Modification
deriving DecidableEq, Repr

/-- State-and-error monad for the embedded Python: state mutations made
before an exception persist, the exception carries a message. -/
abbrev PyM (α : Type) := PyState → PyState × Except String α

instance : Monad PyM where
  pure a := fun s => (s, Except.ok a)
  bind x f := fun s =>
    match x s with
    | (s', Except.ok a) => f a s'
    | (s', Except.error e) => (s', Except.error e)

def PyM.run (x : PyM α) (s : PyState) : PyState × Except String α := x s

/-- `path.write_text(c)`: raises a permission error on a locked path,
otherwise creates or overwrites the file. -/
def writeText (p : Path) (c : String) : PyM Unit := fun s =>
  if s.tree.locked.contains p then
    (s, Except.error "PermissionError")
  else
    ({ s with tree := { s.tree with files := setFile s.tree.files p c } },
     Except.ok ())

/-- Append a directory if it is not yet registered. -/
def insertDir (acc : List Path) (d : Path) : List Path :=
  if acc.contains d then acc else acc ++ [d]

/-- Register a directory and all its ancestors in the tree. -/
def registerDirs (t : FileTree) (p : Path) : FileTree :=
  { t with dirs := (pathPrefixes p).foldl insertDir t.dirs }

/-- `path.mkdir(parents=True, exist_ok=True)`: registers the directory and
all its ancestors. -/
def mkdirParents (p : Path) : PyM Unit := fun s =>
  ({ s with tree := registerDirs s.tree p }, Except.ok ())

/-- `self.add_modification(file, description)`. -/
def addMod (f d : String) : PyM Unit := fun s =>
  ({ s with mods := s.mods ++ [⟨f, d⟩] }, Except.ok ())

def getTree : PyM FileTree := fun s => (s, Except.ok s.tree)

def pyRaise (e : String) : PyM α := fun s => (s, Except.error e)

/-- `try: body except: pass` — state changes made before the exception
persist, the exception is swallowed. -/
def pyTry (x : PyM α) : PyM Unit := fun s =>
  match x s with
  | (s', _) => (s', Except.ok ())

/-- Append a string to a dedup-preserving set-as-list (Python `set.add`,
insertion order; only the cardinality is ever consumed). -/
def insertStr (acc : List String) (x : String) : List String :=
  if acc.contains x then acc else acc ++ [x]

namespace TestCoverageAgent

def test_dirs : List Path :=
  [["app", "src", "test"], ["app", "src", "androidTest"]]

/-- `_get_test_file_path`: mirror the source path under `app/src/test`
with a `Test.kt` name (the source's quirk of re-nesting the full
relative parent is preserved). -/
def test_file_path (source : Path) : Path :=
  ["app", "src", "test"] ++ source.dropLast ++ [stem (fileName source) ++ "Test.kt"]

def isTestFile (p : Path) : Bool :=
  pathHasDir p "test" || pathHasDir p "androidTest"

def analyze (t : FileTree) : List Issue :=
  let dirIssues := test_dirs.filterMap (fun d =>
    if t.pathExists d then none
    else some { type := "missing_test_directory", path := d, severity := "high" })
  let kotlin_files := t.globSuffix ".kt"
  let source_files := kotlin_files.filter (fun f => !(isTestFile f.1))
  let fileIssues := source_files.filterMap (fun f =>
    let tp := test_file_path f.1
    if t.pathExists tp then none
    else some { type := "missing_test_file", source := f.1, test_path := tp,
                severity := "medium" })
  dirIssues ++ fileIssues

/-- Source- and test-file counts among the Kotlin files. -/
def coverageCounts (t : FileTree) : Nat × Nat :=
  let kotlin_files := t.globSuffix ".kt"
  ((kotlin_files.filter (fun f => !(isTestFile f.1))).length,
   (kotlin_files.filter (fun f => isTestFile f.1)).length)

/-- `_estimate_coverage`: test-file share of Kotlin files, as a percent
capped at 100 (the source's float arithmetic is carried out exactly in
`ℚ`). -/
def estimate_coverage (t : FileTree) : ℚ :=
  if (coverageCounts t).1 = 0 then 0
  else min (((coverageCounts t).2 : ℚ) / ((coverageCounts t).1 : ℚ) * 100) 100

/-- `validate`: `_estimate_coverage() >= 85`, computed by the equivalent
integer comparison (rational arithmetic does not evaluate by kernel
reduction; `tc_validate_eq_coverage` proves this form equal to the `ℚ`
threshold test). -/
def validate (_s : AgentSt) (t : FileTree) : Bool :=
  decide ((coverageCounts t).1 ≠ 0) &&
  decide (85 * (coverageCounts t).1 ≤ 100 * (coverageCounts t).2)

/-- `_extract_package`: first `package` line of the file, else the
path-based fallback, which raises (uncaught `ValueError` from
`relative_to`) when the file is not under `app/src/main/java`. -/
def extract_package (t : FileTree) (source : Path) : PyM String :=
  let fallback : PyM String :=
    if source.take 4 = ["app", "src", "main", "java"] then
      let rel := (source.drop 4).dropLast
      pure (if rel = [] then "." else strIntercalate "." rel)
    else
      pyRaise "ValueError"
  match t.readFile source with
  | some content =>
    match (strSplit content "\n").find? (fun l => strStarts (strTrim l) "package ") with
    | some l => pure (strReplace (strReplace (strTrim l) "package " "") ";" "")
    | none => fallback
  | none => fallback

/-- Abbreviated body of the generated test file; the placeholders are
interpolated exactly as in the source template. -/
def testContentTemplate (pkg cls : String) : String :=
  "package " ++ pkg ++ ".test\nimport " ++ pkg ++ "." ++ cls ++
  "\nclass " ++ cls ++ "Test\nfun testInitialization\nfun testPrimaryFunctionality" ++
  "\nfun testErrorHandling\nfun testEdgeCases\nfun testConcurrentAccess"

def generate_test_content (source : Path) : PyM String := do
  let t ← getTree
  let package_path ← extract_package t source
  pure (testContentTemplate package_path (stem (fileName source)))

/-- Abbreviated integration-test payload; it mentions `Context` (via
`targetContext`) like the source text, and no other scanned marker. -/
def integration_test : String :=
  "package com.astralplayer.integration\nimport androidx.test.ext.junit.runners.AndroidJUnit4" ++
  "\nval context = InstrumentationRegistry.getInstrumentation().targetContext" ++
  "\nclass VideoPlayerIntegrationTest\nfun testVideoIntentToPlayback\nfun testAISubtitleGeneration"

def integration_test_path : Path :=
  ["app", "src", "androidTest", "java", "com", "astralplayer", "integration",
   "VideoPlayerIntegrationTest.kt"]

def generate_integration_tests : PyM Unit := do
  mkdirParents integration_test_path.dropLast
  writeText integration_test_path integration_test
  addMod (pathStr integration_test_path) "Generated integration tests"

/-- Abbreviated UI-test payload (contains none of the scanned markers). -/
def ui_test : String :=
  "package com.astralplayer.ui\nimport androidx.compose.ui.test.junit4.createAndroidComposeRule" ++
  "\nclass VideoPlayerUITest\nfun testPlayerControlsVisibility\nfun testGestureControls"

def ui_test_path : Path :=
  ["app", "src", "androidTest", "java", "com", "astralplayer", "ui", "VideoPlayerUITest.kt"]

def generate_ui_tests : PyM Unit := do
  mkdirParents ui_test_path.dropLast
  writeText ui_test_path ui_test
  addMod (pathStr ui_test_path) "Generated UI tests"

/-- Abbreviated benchmark payload (contains none of the scanned markers). -/
def perf_test : String :=
  "package com.astralplayer.benchmark\nimport androidx.benchmark.junit4.BenchmarkRule" ++
  "\nclass VideoPlayerBenchmark\nfun benchmarkVideoLoading\nfun benchmarkSubtitleParsing"

def perf_test_path : Path :=
  ["benchmark", "src", "androidTest", "java", "com", "astralplayer", "benchmark",
   "VideoPlayerBenchmark.kt"]

def generate_performance_tests : PyM Unit := do
  mkdirParents perf_test_path.dropLast
  writeText perf_test_path perf_test
  addMod (pathStr perf_test_path) "Generated performance benchmarks"

/-- The per-issue loop of `fix`, threading the `fixed_count` counter. -/
def fixLoop : List Issue → Nat → PyM Nat
  | [], fixed => pure fixed
  | issue :: rest, fixed => do
    if issue.type = "missing_test_directory" then
      mkdirParents issue.path
      addMod (pathStr issue.path) "Created test directory"
      fixLoop rest (fixed + 1)
    else if issue.type = "missing_test_file" then
      let content ← generate_test_content issue.source
      mkdirParents issue.test_path.dropLast
      writeText issue.test_path content
      addMod (pathStr issue.test_path) "Generated comprehensive test file"
      fixLoop rest (fixed + 1)
    else
      fixLoop rest fixed

def fix (issues : List Issue) : PyM FixOutcome := do
  let fixed ← fixLoop issues 0
  generate_integration_tests
  generate_ui_tests
  generate_performance_tests
  pure { fixed := fixed, total := issues.length }

end TestCoverageAgent

namespace ArchitectureAgent

def databases : List String :=
  ["AstralStreamDatabase", "AstralVuDatabase", "NextPlayerDatabase"]

/-- Package lines of a file, stripped like the source does. -/
def packageLines (content : String) : List String :=
  (strSplit content "\n").filterMap (fun line =>
    let l := strTrim line
    if strStarts l "package " then
      some (strReplace (strReplace l "package " "") ";" "")
    else none)

def firstComponent (pkg : String) : String :=
  if strHas pkg "." then (strSplit pkg ".").headD pkg else pkg

/-- The `packages` set of `analyze`: first components of all package
declarations, in first-seen order. -/
def collectPackages (t : FileTree) : List String :=
  (t.globSuffix ".kt").foldl
    (fun acc f => (packageLines f.2).foldl
      (fun a p => insertStr a (firstComponent p)) acc)
    []

def analyze (t : FileTree) : List Issue :=
  let db_count := (databases.filter (fun db => !(t.globNameHas db ".kt").isEmpty)).length
  let dbIssues :=
    if db_count > 1 then
      [{ type := "multiple_databases", count := db_count, severity := "high" }]
    else []
  let packages := collectPackages t
  let pkgIssues :=
    if packages.length > 2 then
      [{ type := "inconsistent_packages", packages := packages, severity := "medium" }]
    else []
  let nav_files := t.globNameHas "Navigation" ".kt"
  let navIssues :=
    if nav_files.length < 2 then
      [{ type := "incomplete_navigation", severity := "medium" }]
    else []
  dbIssues ++ pkgIssues ++ navIssues

/-- Abbreviated unified-database payload; like the source text it
contains both `companion object` and `Context`. -/
def unified_db : String :=
  "package com.astralplayer.data.database\nimport android.content.Context" ++
  "\nabstract class AstralStreamDatabase : RoomDatabase\ncompanion object\n" ++
  "fun getDatabase(context: Context): AstralStreamDatabase"

def db_path : Path :=
  ["app", "src", "main", "java", "com", "astralplayer", "data", "database",
   "AstralStreamDatabase.kt"]

def consolidate_databases : PyM Unit := do
  mkdirParents db_path.dropLast
  writeText db_path unified_db
  addMod (pathStr db_path) "Created unified database"

def replacements : List (String × String) :=
  [("com.astralplayer.nextplayer", "com.astralplayer.core"),
   ("com.astralplayer.astralstream", "com.astralplayer")]

/-- One file of `_standardize_packages` (its whole body is inside a
`try`, so a failed write is swallowed). -/
def standardizeOne (p : Path) : PyM Unit :=
  pyTry (do
    let t ← getTree
    match t.readFile p with
    | some content =>
      let step := replacements.foldl
        (fun (acc : String × Bool) r =>
          if strHas acc.1 r.1 then (strReplace acc.1 r.1 r.2, true) else acc)
        (content, false)
      if step.2 then do
        writeText p step.1
        addMod (pathStr p) "Standardized package names"
      else pure ()
    | none => pyRaise "FileNotFoundError")

def standardizeLoop : List Path → PyM Unit
  | [] => pure ()
  | p :: rest => do
    standardizeOne p
    standardizeLoop rest

def standardize_packages : PyM Unit := do
  let t ← getTree
  standardizeLoop ((t.globSuffix ".kt").map (fun f => f.1))

/-- Abbreviated navigation payload (contains no scanned marker). -/
def nav_enhancement : String :=
  "package com.astralplayer.presentation.navigation\nimport androidx.navigation.compose.NavHost" ++
  "\nfun AstralStreamNavigation(navController: NavHostController)\nsealed class NavigationRoute"

def nav_path : Path :=
  ["app", "src", "main", "java", "com", "astralplayer", "presentation", "navigation",
   "AstralStreamNavigation.kt"]

def enhance_navigation : PyM Unit := do
  mkdirParents nav_path.dropLast
  writeText nav_path nav_enhancement
  addMod (pathStr nav_path) "Enhanced navigation with deep linking"

/-- Abbreviated domain-interface payloads, keyed as in the source dict. -/
def interfaces : List (String × String) :=
  [("VideoPlayerRepository",
    "package com.astralplayer.domain.repository\ninterface VideoPlayerRepository"),
   ("SubtitleRepository",
    "package com.astralplayer.domain.repository\ninterface SubtitleRepository"),
   ("CloudStorageRepository",
    "package com.astralplayer.domain.repository\ninterface CloudStorageRepository")]

def interfaceDir : Path :=
  ["app", "src", "main", "java", "com", "astralplayer", "domain", "repository"]

def interfacesLoop : List (String × String) → PyM Unit
  | [] => pure ()
  | (name, content) :: rest => do
    let p := interfaceDir ++ [name ++ ".kt"]
    mkdirParents p.dropLast
    writeText p content
    addMod (pathStr p) ("Created " ++ name ++ " interface")
    interfacesLoop rest

def create_domain_interfaces : PyM Unit := interfacesLoop interfaces

/-- Abbreviated use-case payloads, keyed as in the source dict. -/
def use_cases : List (String × String) :=
  [("PlayVideoUseCase",
    "package com.astralplayer.domain.usecase\nclass PlayVideoUseCase"),
   ("GenerateSubtitlesUseCase",
    "package com.astralplayer.domain.usecase\nclass GenerateSubtitlesUseCase")]

def useCaseDir : Path :=
  ["app", "src", "main", "java", "com", "astralplayer", "domain", "usecase"]

def useCasesLoop : List (String × String) → PyM Unit
  | [] => pure ()
  | (name, content) :: rest => do
    let p := useCaseDir ++ [name ++ ".kt"]
    mkdirParents p.dropLast
    writeText p content
    addMod (pathStr p) ("Created " ++ name)
    useCasesLoop rest

def implement_use_cases : PyM Unit := useCasesLoop use_cases

def fixLoop : List Issue → Nat → PyM Nat
  | [], fixed => pure fixed
  | issue :: rest, fixed => do
    if issue.type = "multiple_databases" then
      consolidate_databases
      fixLoop rest (fixed + 1)
    else if issue.type = "inconsistent_packages" then
      standardize_packages
      fixLoop rest (fixed + 1)
    else if issue.type = "incomplete_navigation" then
      enhance_navigation
      fixLoop rest (fixed + 1)
    else
      fixLoop rest fixed

def fix (issues : List Issue) : PyM FixOutcome := do
  let fixed ← fixLoop issues 0
  create_domain_interfaces
  implement_use_cases
  pure { fixed := fixed, total := issues.length }

def layerRoot : Path := ["app", "src", "main", "java", "com", "astralplayer"]

def validate (_s : AgentSt) (t : FileTree) : Bool :=
  t.pathExists (layerRoot ++ ["domain"]) &&
  t.pathExists (layerRoot ++ ["data"]) &&
  t.pathExists (layerRoot ++ ["presentation"])

end ArchitectureAgent

namespace SecurityAgent

def has_certificate_pinning (t : FileTree) : Bool :=
  (t.globNameHas "Network" ".kt").any (fun f => strHas f.2 "CertificatePinner")

def proguard_path : Path := ["app", "proguard-rules.pro"]

def has_encryption (t : FileTree) : Bool :=
  (t.globNameHas "Security" ".kt").any (fun f =>
    strHas f.2 "EncryptedSharedPreferences" || strHas f.2 "Cipher")

def analyze (t : FileTree) : List Issue :=
  let pinIssues :=
    if !(has_certificate_pinning t) then
      [{ type := "missing_certificate_pinning", severity := "high" }]
    else []
  let obfIssues :=
    if !(t.pathExists proguard_path) ||
        strLen ((t.readFile proguard_path).getD "") < 100 then
      [{ type := "insufficient_obfuscation", severity := "medium" }]
    else []
  let httpIssues := (t.globSuffix ".kt").filterMap (fun f =>
    if strHas f.2 "http://" && !(strHas f.2 "localhost") then
      some { type := "insecure_http", file := f.1, severity := "high" }
    else none)
  pinIssues ++ obfIssues ++ httpIssues

/-- Abbreviated certificate-pinning payload; like the source text it
contains `CertificatePinner` and none of the other scanned markers. -/
def cert_pinning : String :=
  "package com.astralplayer.network.security\nimport okhttp3.CertificatePinner" ++
  "\nclass SecureNetworkClient\nval certificatePinner = CertificatePinner.Builder().build()" ++
  "\nfun createSecureClient(): OkHttpClient"

def cert_path : Path :=
  ["app", "src", "main", "java", "com", "astralplayer", "network", "security",
   "SecureNetworkClient.kt"]

def implement_certificate_pinning : PyM Unit := do
  mkdirParents cert_path.dropLast
  writeText cert_path cert_pinning
  addMod (pathStr cert_path) "Implemented certificate pinning"

/-- Abbreviated ProGuard payload; like the source text it is at least 100
characters long (re-analysis checks `len < 100`). -/
def proguard_rules : String :=
  "# AstralStream ProGuard Rules\n-keep class com.astralplayer.security.**" ++
  "\n-keepattributes Signature\n-dontwarn okio.**" ++
  "\n-keep class kotlinx.serialization.**\n-keepclassmembers enum *"

def enhance_obfuscation : PyM Unit := do
  writeText proguard_path proguard_rules
  addMod (pathStr proguard_path) "Enhanced ProGuard obfuscation rules"

/-- `_fix_insecure_endpoints`: the whole body sits in a `try`, so a read
or write failure is swallowed and no modification is recorded. -/
def fix_insecure_endpoints (p : Path) : PyM Unit :=
  pyTry (do
    let t ← getTree
    match t.readFile p with
    | some content => do
      writeText p (strReplace content "http://" "https://")
      addMod (pathStr p) "Fixed insecure HTTP endpoints"
    | none => pyRaise "FileNotFoundError")

/-- Abbreviated biometric payload; like the source text it contains
`Context` and neither `companion object` nor an encryption marker. -/
def biometric_auth : String :=
  "package com.astralplayer.security\nimport android.content.Context" ++
  "\nclass BiometricAuthManager\nval biometricManager = BiometricManager.from(context)" ++
  "\nfun canAuthenticate(): Boolean"

def bio_path : Path :=
  ["app", "src", "main", "java", "com", "astralplayer", "security",
   "BiometricAuthManager.kt"]

def implement_biometric_auth : PyM Unit := do
  mkdirParents bio_path.dropLast
  writeText bio_path biometric_auth
  addMod (pathStr bio_path) "Implemented biometric authentication"

/-- Abbreviated encryption payload; like the source text it contains
`Context`, `EncryptedSharedPreferences` and `Cipher` but not
`companion object`. -/
def encryption : String :=
  "package com.astralplayer.security\nimport android.content.Context" ++
  "\nimport androidx.security.crypto.EncryptedSharedPreferences\nimport javax.crypto.Cipher" ++
  "\nclass AdvancedEncryptionManager\nfun encryptData\nfun decryptData"

def enc_path : Path :=
  ["app", "src", "main", "java", "com", "astralplayer", "security",
   "AdvancedEncryptionManager.kt"]

def enhance_data_encryption : PyM Unit := do
  mkdirParents enc_path.dropLast
  writeText enc_path encryption
  addMod (pathStr enc_path) "Enhanced data encryption"

def fixLoop : List Issue → Nat → PyM Nat
  | [], fixed => pure fixed
  | issue :: rest, fixed => do
    if issue.type = "missing_certificate_pinning" then
      implement_certificate_pinning
      fixLoop rest (fixed + 1)
    else if issue.type = "insufficient_obfuscation" then
      enhance_obfuscation
      fixLoop rest (fixed + 1)
    else if issue.type = "insecure_http" then
      fix_insecure_endpoints issue.file
      fixLoop rest (fixed + 1)
    else
      fixLoop rest fixed

def fix (issues : List Issue) : PyM FixOutcome := do
  let fixed ← fixLoop issues 0
  implement_biometric_auth
  enhance_data_encryption
  pure { fixed := fixed, total := issues.length }

def validate (_s : AgentSt) (t : FileTree) : Bool :=
  has_certificate_pinning t && t.pathExists proguard_path && has_encryption t

end SecurityAgent

namespace PerformanceAgent

/-- The per-file part of `analyze`: a leak issue when both markers occur,
then a coroutine-scope issue, in source order. -/
def fileIssues (f : Path × String) : List Issue :=
  (if strHas f.2 "companion object" && strHas f.2 "Context" then
    [{ type := "potential_memory_leak", file := f.1, severity := "high" }]
  else []) ++
  (if strHas f.2 "GlobalScope.launch" then
    [{ type := "global_scope_usage", file := f.1, severity := "medium" }]
  else [])

def baseline_path : Path := ["app", "src", "main", "baseline-prof.txt"]

def analyze (t : FileTree) : List Issue :=
  ((t.globSuffix ".kt").flatMap fileIssues) ++
  (if !(t.pathExists baseline_path) then
    [{ type := "missing_baseline_profile", severity := "medium" }]
  else [])

/-- `_fix_memory_leak`: guarded rewrite inside a `try`. -/
def fix_memory_leak (p : Path) : PyM Unit :=
  pyTry (do
    let t ← getTree
    match t.readFile p with
    | some content =>
      let content :=
        if strHas content "companion object" && strHas content "Context" then
          strReplace content "private lateinit var context: Context"
            "private var contextRef: WeakReference<Context>? = null"
        else content
      writeText p content
      addMod (pathStr p) "Fixed potential memory leak"
    | none => pyRaise "FileNotFoundError")

/-- `_fix_coroutine_scope`: rewrite inside a `try`. -/
def fix_coroutine_scope (p : Path) : PyM Unit :=
  pyTry (do
    let t ← getTree
    match t.readFile p with
    | some content => do
      let content := strReplace (strReplace content "GlobalScope.launch" "lifecycleScope.launch")
        "GlobalScope.async" "lifecycleScope.async"
      writeText p content
      addMod (pathStr p) "Replaced GlobalScope with lifecycleScope"
    | none => pyRaise "FileNotFoundError")

/-- Abbreviated baseline-profile payload (a `.txt` file, never scanned). -/
def baseline_profile : String :=
  "# Baseline Profile for AstralStream\nHSPLcom/astralplayer/MainActivity\nLandroid/content/Context"

def create_baseline_profile : PyM Unit := do
  mkdirParents baseline_path.dropLast
  writeText baseline_path baseline_profile
  addMod (pathStr baseline_path) "Created baseline profile"

/-- `_optimize_build_config` only logs and records a ledger entry — it
writes no file. -/
def optimize_build_config : PyM Unit :=
  addMod "build.gradle" "Optimized build configuration"

/-- Abbreviated lazy-loading payload; like the source text it contains
`Context` (via `withContext`) and no other scanned marker. -/
def lazy_loading : String :=
  "package com.astralplayer.performance\nimport kotlinx.coroutines.withContext" ++
  "\nclass LazyComponentLoader\nfun preloadComponents = withContext(Dispatchers.IO)"

def lazy_path : Path :=
  ["app", "src", "main", "java", "com", "astralplayer", "performance",
   "LazyComponentLoader.kt"]

def implement_lazy_loading : PyM Unit := do
  mkdirParents lazy_path.dropLast
  writeText lazy_path lazy_loading
  addMod (pathStr lazy_path) "Implemented lazy loading"

/-- Abbreviated monitoring payload (contains no scanned marker). -/
def perf_monitor : String :=
  "package com.astralplayer.performance\nclass AdvancedPerformanceMonitor" ++
  "\nfun startMonitoring\nfun trackFrameMetrics"

def perf_path : Path :=
  ["app", "src", "main", "java", "com", "astralplayer", "performance",
   "AdvancedPerformanceMonitor.kt"]

def add_performance_monitoring : PyM Unit := do
  mkdirParents perf_path.dropLast
  writeText perf_path perf_monitor
  addMod (pathStr perf_path) "Added advanced performance monitoring"

def fixLoop : List Issue → Nat → PyM Nat
  | [], fixed => pure fixed
  | issue :: rest, fixed => do
    if issue.type = "potential_memory_leak" then
      fix_memory_leak issue.file
      fixLoop rest (fixed + 1)
    else if issue.type = "global_scope_usage" then
      fix_coroutine_scope issue.file
      fixLoop rest (fixed + 1)
    else if issue.type = "missing_baseline_profile" then
      create_baseline_profile
      fixLoop rest (fixed + 1)
    else
      fixLoop rest fixed

def fix (issues : List Issue) : PyM FixOutcome := do
  let fixed ← fixLoop issues 0
  optimize_build_config
  implement_lazy_loading
  add_performance_monitoring
  pure { fixed := fixed, total := issues.length }

def validate (_s : AgentSt) (t : FileTree) : Bool :=
  !(t.globNameHas "Performance" ".kt").isEmpty

end PerformanceAgent

namespace DocumentationAgent

def readme_path : Path := ["README.md"]

def docs_dir : Path := ["docs"]

def undocumented (content : String) : Bool :=
  strCount content "/**" < strCount content "class " + strCount content "fun "

def analyze (t : FileTree) : List Issue :=
  let readmeIssues :=
    if !(t.pathExists readme_path) then
      [{ type := "missing_readme", severity := "high" }]
    else []
  let apiIssues :=
    if !(t.pathExists docs_dir) then
      [{ type := "missing_api_docs", severity := "medium" }]
    else []
  let undocumented_count :=
    ((t.globSuffix ".kt").filter (fun f => undocumented f.2)).length
  let inlineIssues :=
    if undocumented_count > 10 then
      [{ type := "insufficient_inline_docs", count := undocumented_count,
         severity := "medium" }]
    else []
  readmeIssues ++ apiIssues ++ inlineIssues

/-- Abbreviated README payload. -/
def readme : String :=
  "# AstralStream Video Player\nOverview. Features. Quick Start. Architecture. License MIT."

def generate_readme : PyM Unit := do
  writeText readme_path readme
  addMod (pathStr readme_path) "Generated comprehensive README"

/-- Abbreviated API documentation payload. -/
def api_docs : String :=
  "# AstralStream API Documentation\nCore APIs. VideoPlayerManager. SubtitleGenerator."

def generate_api_docs : PyM Unit := do
  mkdirParents docs_dir
  writeText (docs_dir ++ ["API.md"]) api_docs
  addMod (pathStr (docs_dir ++ ["API.md"])) "Generated API documentation"

/-- `_enhance_inline_docs` only logs a sample and records a ledger entry —
it writes no file. -/
def enhance_inline_docs : PyM Unit :=
  addMod "Multiple files" "Enhanced inline documentation"

/-- Abbreviated architecture documentation payload. -/
def arch_docs : String :=
  "# AstralStream Architecture\nClean Architecture. Presentation. Domain. Data layers."

def generate_architecture_docs : PyM Unit := do
  mkdirParents docs_dir
  writeText (docs_dir ++ ["ARCHITECTURE.md"]) arch_docs
  addMod (pathStr (docs_dir ++ ["ARCHITECTURE.md"])) "Generated architecture documentation"

/-- Abbreviated setup-guide payload (the source writes it without a
`mkdir`; `docs` always exists here because the architecture docs were
written first). -/
def setup_guide : String :=
  "# AstralStream Setup Guide\nPrerequisites. Installation. Troubleshooting."

def generate_setup_guide : PyM Unit := do
  writeText (docs_dir ++ ["SETUP.md"]) setup_guide
  addMod (pathStr (docs_dir ++ ["SETUP.md"])) "Generated setup guide"

/-- Abbreviated contributing-guide payload. -/
def contributing : String :=
  "# Contributing to AstralStream\nCode of Conduct. Pull Requests. Style Guidelines."

def contributing_path : Path := ["CONTRIBUTING.md"]

def generate_contributing_guide : PyM Unit := do
  writeText contributing_path contributing
  addMod (pathStr contributing_path) "Generated contributing guide"

def fixLoop : List Issue → Nat → PyM Nat
  | [], fixed => pure fixed
  | issue :: rest, fixed => do
    if issue.type = "missing_readme" then
      generate_readme
      fixLoop rest (fixed + 1)
    else if issue.type = "missing_api_docs" then
      generate_api_docs
      fixLoop rest (fixed + 1)
    else if issue.type = "insufficient_inline_docs" then
      enhance_inline_docs
      fixLoop rest (fixed + 1)
    else
      fixLoop rest fixed

def fix (issues : List Issue) : PyM FixOutcome := do
  let fixed ← fixLoop issues 0
  generate_architecture_docs
  generate_setup_guide
  generate_contributing_guide
  pure { fixed := fixed, total := issues.length }

def validate (_s : AgentSt) (t : FileTree) : Bool :=
  t.pathExists readme_path && t.pathExists docs_dir

end DocumentationAgent

/-- One entry of the `MasterOrchestrator.agents` roster: the three-phase
contract of `AgentBase`. -/
structure AgentSpec where
  name : String
  analyze : FileTree → List Issue
  fix : List Issue → PyM FixOutcome
  validate : AgentSt → FileTree → Bool

def tcSpec : AgentSpec :=
  ⟨"TestCoverageAgent", TestCoverageAgent.analyze, TestCoverageAgent.fix,
   TestCoverageAgent.validate⟩

def archSpec : AgentSpec :=
  ⟨"ArchitectureAgent", ArchitectureAgent.analyze, ArchitectureAgent.fix,
   ArchitectureAgent.validate⟩

def secSpec : AgentSpec :=
  ⟨"SecurityAgent", SecurityAgent.analyze, SecurityAgent.fix,
   SecurityAgent.validate⟩

def perfSpec : AgentSpec :=
  ⟨"PerformanceAgent", PerformanceAgent.analyze, PerformanceAgent.fix,
   PerformanceAgent.validate⟩

def docSpec : AgentSpec :=
  ⟨"DocumentationAgent", DocumentationAgent.analyze, DocumentationAgent.fix,
   DocumentationAgent.validate⟩

def roster : List AgentSpec := [tcSpec, archSpec, secSpec, perfSpec, docSpec]

/-- What one agent did during the fixing phase. -/
structure AgentRun where
  name : String
  issues : List Issue
  treeBefore : FileTree
  treeAfter : FileTree
  mods : List Modification
  outcome : Option FixOutcome
deriving DecidableEq, Repr

/-- Events of the sequential run, in execution order. -/
inductive Event where
  | analyzed (agent : String)
  | modRecorded (agent : String) (m : Modification)
  | validated (agent : String) (ok : Bool)
deriving DecidableEq, Repr

def phaseOf : Event → Nat
  | Event.analyzed _ => 0
  | Event.modRecorded _ _ => 1
  | Event.validated _ _ => 2

/-- Phase 2 of `run_full_upgrade`: each agent with a nonempty issue list
runs `fix`; an uncaught exception aborts the whole loop, keeping the
tree and ledger entries mutated so far. -/
def fixPhase : List (AgentSpec × List Issue) → FileTree →
    List AgentRun × FileTree × Option String
  | [], t => ([], t, none)
  | (a, issues) :: rest, t =>
    if issues.isEmpty then
      let r : AgentRun := ⟨a.name, issues, t, t, [], none⟩
      let (rs, t', e) := fixPhase rest t
      (r :: rs, t', e)
    else
      match a.fix issues ⟨t, []⟩ with
      | (s', Except.ok o) =>
        let r : AgentRun := ⟨a.name, issues, t, s'.tree, s'.mods, some o⟩
        let (rs, t', e) := fixPhase rest s'.tree
        (r :: rs, t', e)
      | (s', Except.error e) =>
        ([⟨a.name, issues, t, s'.tree, s'.mods, none⟩], s'.tree, some e)

structure RunOutcome where
  backup : FileTree
  agentRuns : List AgentRun
  validations : List Bool
  finalTree : FileTree
  result : Except String Bool
  trace : List Event

def report_path : Path := ["EXPERT_TEAM_REPORT.md"]

/-- Abbreviated `_generate_final_report` body. -/
def reportContent (success : Bool) (totalMods : Nat) : String :=
  "# AstralStream Expert Team Upgrade Report\nResult: " ++
  (if success then "SUCCESS" else "INCOMPLETE") ++
  "\nTotal files modified: " ++ toString totalMods

/-- Phase 1 of `run_full_upgrade`: every agent analyzes the pristine
tree (analyze is read-only in every agent). -/
def analysesOf (t0 : FileTree) : List (AgentSpec × List Issue) :=
  roster.map (fun a => (a, a.analyze t0))

/-- Phase 3 of `run_full_upgrade`: every agent validates the tree the
fixing phase left behind. -/
def valsOf (runs : List AgentRun) (tFix : FileTree) : List Bool :=
  (roster.zip runs).map (fun x => x.1.validate ⟨x.2.issues, x.2.mods⟩ tFix)

/-- `all_valid = all_valid and valid` folded over the agents. -/
def allValidOf (vals : List Bool) : Bool :=
  vals.foldl (fun acc v => acc && v) true

/-- `MasterOrchestrator.run_full_upgrade`: backup copy, then the three
sequential phases, then the report write.  There is no error handler
and no restore anywhere in the source: an exception from a fix phase
(or the report write) propagates out, leaving the tree as mutated. -/
def runFullUpgrade (t0 : FileTree) : RunOutcome :=
  let backup := t0
  let analyses := analysesOf t0
  let fp := fixPhase analyses t0
  let runs := fp.1
  let tFix := fp.2.1
  let analyzeEvents := analyses.map (fun x => Event.analyzed x.1.name)
  let fixEvents := runs.flatMap (fun r => r.mods.map (fun m => Event.modRecorded r.name m))
  match fp.2.2 with
  | some e =>
    { backup := backup, agentRuns := runs, validations := [], finalTree := tFix,
      result := Except.error e, trace := analyzeEvents ++ fixEvents }
  | none =>
    let vals := valsOf runs tFix
    let all_valid := allValidOf vals
    let total_mods := (runs.map (fun r => r.mods.length)).sum
    let valEvents := (roster.zip vals).map (fun x => Event.validated x.1.name x.2)
    match writeText report_path (reportContent all_valid total_mods) ⟨tFix, []⟩ with
    | (s', Except.ok _) =>
      { backup := backup, agentRuns := runs, validations := vals, finalTree := s'.tree,
        result := Except.ok all_valid, trace := analyzeEvents ++ fixEvents ++ valEvents }
    | (s', Except.error e) =>
      { backup := backup, agentRuns := runs, validations := vals, finalTree := s'.tree,
        result := Except.error e, trace := analyzeEvents ++ fixEvents ++ valEvents }

/-- Total ledger size: concatenation of every agent's
`modifications_made` (as summed by `_generate_final_report`). -/
def ledgerCount (r : RunOutcome) : Nat :=
  (r.agentRuns.map (fun a => a.mods.length)).sum

/-- Sum of `fixedCount` over the agents whose fix phase completed. -/
def sumFixed (r : RunOutcome) : Nat :=
  ((r.agentRuns.filterMap (fun a => a.outcome)).map (fun o => o.fixed)).sum

/-- The process exit status of `exit(asyncio.run(main()))`: `main`
returns `0`/`1` from the run verdict, and an exception escaping
`run_full_upgrade` terminates CPython with status 1 (unhandled
traceback).  No code path produces status 2. -/
def mainExit (t : FileTree) : Nat :=
  match (runFullUpgrade t).result with
  | Except.ok true => 0
  | Except.ok false => 1
  | Except.error _ => 1

namespace Elite

/-- The mutable fields of `AstralStreamEliteAgent` that phases 2–10
touch: the project tree, `modifications_log` and the cataloged file
lists. -/
structure Core where
  tree : FileTree
  modifications_log : List String
  kotlin_files : List Path
  xml_files : List Path
  gradle_files : List Path
deriving DecidableEq, Repr

/-- Elite-agent state: the core plus the backup copy, which only
`_create_backup` ever writes. -/
structure AgentState where
  core : Core
  backup : Option FileTree
deriving DecidableEq, Repr

/-- The parsed CLI flags of `main` (argparse). -/
structure Args where
  dry_run : Bool
  skip_backup : Bool
deriving DecidableEq, Repr

/-- `_create_backup`: unconditional `shutil.copytree` of the project
tree, plus a log entry. -/
def create_backup (s : AgentState) : AgentState :=
  { s with
    backup := some s.core.tree,
    core := { s.core with
      modifications_log := s.core.modifications_log ++ ["Backup created"] } }

/-- `_analyze_project_structure`: read-only catalog of the tree; neither
the tree nor `modifications_log` changes. -/
def analyze_project_structure (c : Core) : Core :=
  { c with
    kotlin_files := (c.tree.globSuffix ".kt").map (fun f => f.1),
    xml_files := (c.tree.globSuffix ".xml").map (fun f => f.1),
    gradle_files := (c.tree.globSuffix ".gradle").map (fun f => f.1) }

/-- `run_full_upgrade`: `_create_backup` first (unconditionally — the
`skip_backup` flag is never consulted), then
`_analyze_project_structure`, then phases 2–10.  The latter are
abstracted as an arbitrary transformation `rest` of the core: they
write generated artifacts into the project tree and append to the log,
and never touch the backup copy. -/
def run_full_upgrade (rest : Core → Core) (s : AgentState) : AgentState :=
  let s1 := create_backup s
  let s2 := { s1 with core := analyze_project_structure s1.core }
  { s2 with core := rest s2.core }

/-- `main` on an existing project path: dry-run executes only
`_analyze_project_structure`; otherwise the full upgrade runs.  The
`skip_backup` flag is parsed but read nowhere. -/
def eliteMain (rest : Core → Core) (args : Args) (t : FileTree) : AgentState :=
  let s0 : AgentState := ⟨⟨t, [], [], [], []⟩, none⟩
  if args.dry_run then
    { s0 with core := analyze_project_structure s0.core }
  else
    run_full_upgrade rest s0

end Elite

/-!
Concrete run fixtures: the states produced by each agent of the full
run on the empty project tree (and on the tree with a write-protected
integration-test path), computed from the embedded agents and pinned
here as literals so each pipeline step can be verified separately.
-/

def fx_issTC : List Issue :=
  [{ type := "missing_test_directory",
     path := ["app", "src", "test"],
     source := [],
     test_path := [],
     file := [],
     severity := "high",
     count := 0,
     packages := [] },
   { type := "missing_test_directory",
     path := ["app", "src", "androidTest"],
     source := [],
     test_path := [],
     file := [],
     severity := "high",
     count := 0,
     packages := [] }]

def fx_issArch : List Issue :=
  [{ type := "incomplete_navigation",
     path := [],
     source := [],
     test_path := [],
     file := [],
     severity := "medium",
     count := 0,
     packages := [] }]

def fx_issSec : List Issue :=
  [{ type := "missing_certificate_pinning",
     path := [],
     source := [],
     test_path := [],
     file := [],
     severity := "high",
     count := 0,
     packages := [] },
   { type := "insufficient_obfuscation",
     path := [],
     source := [],
     test_path := [],
     file := [],
     severity := "medium",
     count := 0,
     packages := [] }]

def fx_issPerf : List Issue :=
  [{ type := "missing_baseline_profile",
     path := [],
     source := [],
     test_path := [],
     file := [],
     severity := "medium",
     count := 0,
     packages := [] }]

def fx_issDoc : List Issue :=
  [{ type := "missing_readme",
     path := [],
     source := [],
     test_path := [],
     file := [],
     severity := "high",
     count := 0,
     packages := [] },
   { type := "missing_api_docs",
     path := [],
     source := [],
     test_path := [],
     file := [],
     severity := "medium",
     count := 0,
     packages := [] }]

def fx_treeA1 : FileTree :=
  { dirs := [["app"],
             ["app", "src"],
             ["app", "src", "test"],
             ["app", "src", "androidTest"],
             ["app", "src", "androidTest", "java"],
             ["app", "src", "androidTest", "java", "com"],
             ["app", "src", "androidTest", "java", "com", "astralplayer"],
             ["app", "src", "androidTest", "java", "com", "astralplayer", "integration"],
             ["app", "src", "androidTest", "java", "com", "astralplayer", "ui"],
             ["benchmark"],
             ["benchmark", "src"],
             ["benchmark", "src", "androidTest"],
             ["benchmark", "src", "androidTest", "java"],
             ["benchmark", "src", "androidTest", "java", "com"],
             ["benchmark", "src", "androidTest", "java", "com", "astralplayer"],
             ["benchmark", "src", "androidTest", "java", "com", "astralplayer", "benchmark"]],
    files := [(["app", "src", "androidTest", "java", "com", "astralplayer", "integration",
                "VideoPlayerIntegrationTest.kt"],
               "package com.astralplayer.integration\nimport androidx.test.ext.junit.runners.AndroidJUnit4\nval context = InstrumentationRegistry.getInstrumentation().targetContext\nclass VideoPlayerIntegrationTest\nfun testVideoIntentToPlayback\nfun testAISubtitleGeneration"),
              (["app", "src", "androidTest", "java", "com", "astralplayer", "ui", "VideoPlayerUITest.kt"],
               "package com.astralplayer.ui\nimport androidx.compose.ui.test.junit4.createAndroidComposeRule\nclass VideoPlayerUITest\nfun testPlayerControlsVisibility\nfun testGestureControls"),
              (["benchmark", "src", "androidTest", "java", "com", "astralplayer", "benchmark", "VideoPlayerBenchmark.kt"],
               "package com.astralplayer.benchmark\nimport androidx.benchmark.junit4.BenchmarkRule\nclass VideoPlayerBenchmark\nfun benchmarkVideoLoading\nfun benchmarkSubtitleParsing")],
    locked := [] }

def fx_modsTC : List Modification :=
  [{ file := "app/src/test", description := "Created test directory" },
   { file := "app/src/androidTest", description := "Created test directory" },
   { file := "app/src/androidTest/java/com/astralplayer/integration/VideoPlayerIntegrationTest.kt",
     description := "Generated integration tests" },
   { file := "app/src/androidTest/java/com/astralplayer/ui/VideoPlayerUITest.kt", description := "Generated UI tests" },
   { file := "benchmark/src/androidTest/java/com/astralplayer/benchmark/VideoPlayerBenchmark.kt",
     description := "Generated performance benchmarks" }]

def fx_outTC : Except String FixOutcome :=
  Except.ok { fixed := 2, total := 2 }

def fx_treeA2 : FileTree :=
  { dirs := [["app"],
             ["app", "src"],
             ["app", "src", "test"],
             ["app", "src", "androidTest"],
             ["app", "src", "androidTest", "java"],
             ["app", "src", "androidTest", "java", "com"],
             ["app", "src", "androidTest", "java", "com", "astralplayer"],
             ["app", "src", "androidTest", "java", "com", "astralplayer", "integration"],
             ["app", "src", "androidTest", "java", "com", "astralplayer", "ui"],
             ["benchmark"],
             ["benchmark", "src"],
             ["benchmark", "src", "androidTest"],
             ["benchmark", "src", "androidTest", "java"],
             ["benchmark", "src", "androidTest", "java", "com"],
             ["benchmark", "src", "androidTest", "java", "com", "astralplayer"],
             ["benchmark", "src", "androidTest", "java", "com", "astralplayer", "benchmark"],
             ["app", "src", "main"],
             ["app", "src", "main", "java"],
             ["app", "src", "main", "java", "com"],
             ["app", "src", "main", "java", "com", "astralplayer"],
             ["app", "src", "main", "java", "com", "astralplayer", "presentation"],
             ["app", "src", "main", "java", "com", "astralplayer", "presentation", "navigation"],
             ["app", "src", "main", "java", "com", "astralplayer", "domain"],
             ["app", "src", "main", "java", "com", "astralplayer", "domain", "repository"],
             ["app", "src", "main", "java", "com", "astralplayer", "domain", "usecase"]],
    files := [(["app", "src", "androidTest", "java", "com", "astralplayer", "integration",
                "VideoPlayerIntegrationTest.kt"],
               "package com.astralplayer.integration\nimport androidx.test.ext.junit.runners.AndroidJUnit4\nval context = InstrumentationRegistry.getInstrumentation().targetContext\nclass VideoPlayerIntegrationTest\nfun testVideoIntentToPlayback\nfun testAISubtitleGeneration"),
              (["app", "src", "androidTest", "java", "com", "astralplayer", "ui", "VideoPlayerUITest.kt"],
               "package com.astralplayer.ui\nimport androidx.compose.ui.test.junit4.createAndroidComposeRule\nclass VideoPlayerUITest\nfun testPlayerControlsVisibility\nfun testGestureControls"),
              (["benchmark", "src", "androidTest", "java", "com", "astralplayer", "benchmark", "VideoPlayerBenchmark.kt"],
               "package com.astralplayer.benchmark\nimport androidx.benchmark.junit4.BenchmarkRule\nclass VideoPlayerBenchmark\nfun benchmarkVideoLoading\nfun benchmarkSubtitleParsing"),
              (["app", "src", "main", "java", "com", "astralplayer", "presentation", "navigation",
                "AstralStreamNavigation.kt"],
               "package com.astralplayer.presentation.navigation\nimport androidx.navigation.compose.NavHost\nfun AstralStreamNavigation(navController: NavHostController)\nsealed class NavigationRoute"),
              (["app", "src", "main", "java", "com", "astralplayer", "domain", "repository", "VideoPlayerRepository.kt"],
               "package com.astralplayer.domain.repository\ninterface VideoPlayerRepository"),
              (["app", "src", "main", "java", "com", "astralplayer", "domain", "repository", "SubtitleRepository.kt"],
               "package com.astralplayer.domain.repository\ninterface SubtitleRepository"),
              (["app", "src", "main", "java", "com", "astralplayer", "domain", "repository", "CloudStorageRepository.kt"],
               "package com.astralplayer.domain.repository\ninterface CloudStorageRepository"),
              (["app", "src", "main", "java", "com", "astralplayer", "domain", "usecase", "PlayVideoUseCase.kt"],
               "package com.astralplayer.domain.usecase\nclass PlayVideoUseCase"),
              (["app", "src", "main", "java", "com", "astralplayer", "domain", "usecase", "GenerateSubtitlesUseCase.kt"],
               "package com.astralplayer.domain.usecase\nclass GenerateSubtitlesUseCase")],
    locked := [] }

def fx_modsArch : List Modification :=
  [{ file := "app/src/main/java/com/astralplayer/presentation/navigation/AstralStreamNavigation.kt",
     description := "Enhanced navigation with deep linking" },
   { file := "app/src/main/java/com/astralplayer/domain/repository/VideoPlayerRepository.kt",
     description := "Created VideoPlayerRepository interface" },
   { file := "app/src/main/java/com/astralplayer/domain/repository/SubtitleRepository.kt",
     description := "Created SubtitleRepository interface" },
   { file := "app/src/main/java/com/astralplayer/domain/repository/CloudStorageRepository.kt",
     description := "Created CloudStorageRepository interface" },
   { file := "app/src/main/java/com/astralplayer/domain/usecase/PlayVideoUseCase.kt",
     description := "Created PlayVideoUseCase" },
   { file := "app/src/main/java/com/astralplayer/domain/usecase/GenerateSubtitlesUseCase.kt",
     description := "Created GenerateSubtitlesUseCase" }]

def fx_outArch : Except String FixOutcome :=
  Except.ok { fixed := 1, total := 1 }

def fx_treeA3 : FileTree :=
  { dirs := [["app"],
             ["app", "src"],
             ["app", "src", "test"],
             ["app", "src", "androidTest"],
             ["app", "src", "androidTest", "java"],
             ["app", "src", "androidTest", "java", "com"],
             ["app", "src", "androidTest", "java", "com", "astralplayer"],
             ["app", "src", "androidTest", "java", "com", "astralplayer", "integration"],
             ["app", "src", "androidTest", "java", "com", "astralplayer", "ui"],
             ["benchmark"],
             ["benchmark", "src"],
             ["benchmark", "src", "androidTest"],
             ["benchmark", "src", "androidTest", "java"],
             ["benchmark", "src", "androidTest", "java", "com"],
             ["benchmark", "src", "androidTest", "java", "com", "astralplayer"],
             ["benchmark", "src", "androidTest", "java", "com", "astralplayer", "benchmark"],
             ["app", "src", "main"],
             ["app", "src", "main", "java"],
             ["app", "src", "main", "java", "com"],
             ["app", "src", "main", "java", "com", "astralplayer"],
             ["app", "src", "main", "java", "com", "astralplayer", "presentation"],
             ["app", "src", "main", "java", "com", "astralplayer", "presentation", "navigation"],
             ["app", "src", "main", "java", "com", "astralplayer", "domain"],
             ["app", "src", "main", "java", "com", "astralplayer", "domain", "repository"],
             ["app", "src", "main", "java", "com", "astralplayer", "domain", "usecase"],
             ["app", "src", "main", "java", "com", "astralplayer", "network"],
             ["app", "src", "main", "java", "com", "astralplayer", "network", "security"],
             ["app", "src", "main", "java", "com", "astralplayer", "security"]],
    files := [(["app", "src", "androidTest", "java", "com", "astralplayer", "integration",
                "VideoPlayerIntegrationTest.kt"],
               "package com.astralplayer.integration\nimport androidx.test.ext.junit.runners.AndroidJUnit4\nval context = InstrumentationRegistry.getInstrumentation().targetContext\nclass VideoPlayerIntegrationTest\nfun testVideoIntentToPlayback\nfun testAISubtitleGeneration"),
              (["app", "src", "androidTest", "java", "com", "astralplayer", "ui", "VideoPlayerUITest.kt"],
               "package com.astralplayer.ui\nimport androidx.compose.ui.test.junit4.createAndroidComposeRule\nclass VideoPlayerUITest\nfun testPlayerControlsVisibility\nfun testGestureControls"),
              (["benchmark", "src", "androidTest", "java", "com", "astralplayer", "benchmark", "VideoPlayerBenchmark.kt"],
               "package com.astralplayer.benchmark\nimport androidx.benchmark.junit4.BenchmarkRule\nclass VideoPlayerBenchmark\nfun benchmarkVideoLoading\nfun benchmarkSubtitleParsing"),
              (["app", "src", "main", "java", "com", "astralplayer", "presentation", "navigation",
                "AstralStreamNavigation.kt"],
               "package com.astralplayer.presentation.navigation\nimport androidx.navigation.compose.NavHost\nfun AstralStreamNavigation(navController: NavHostController)\nsealed class NavigationRoute"),
              (["app", "src", "main", "java", "com", "astralplayer", "domain", "repository", "VideoPlayerRepository.kt"],
               "package com.astralplayer.domain.repository\ninterface VideoPlayerRepository"),
              (["app", "src", "main", "java", "com", "astralplayer", "domain", "repository", "SubtitleRepository.kt"],
               "package com.astralplayer.domain.repository\ninterface SubtitleRepository"),
              (["app", "src", "main", "java", "com", "astralplayer", "domain", "repository", "CloudStorageRepository.kt"],
               "package com.astralplayer.domain.repository\ninterface CloudStorageRepository"),
              (["app", "src", "main", "java", "com", "astralplayer", "domain", "usecase", "PlayVideoUseCase.kt"],
               "package com.astralplayer.domain.usecase\nclass PlayVideoUseCase"),
              (["app", "src", "main", "java", "com", "astralplayer", "domain", "usecase", "GenerateSubtitlesUseCase.kt"],
               "package com.astralplayer.domain.usecase\nclass GenerateSubtitlesUseCase"),
              (["app", "src", "main", "java", "com", "astralplayer", "network", "security", "SecureNetworkClient.kt"],
               "package com.astralplayer.network.security\nimport okhttp3.CertificatePinner\nclass SecureNetworkClient\nval certificatePinner = CertificatePinner.Builder().build()\nfun createSecureClient(): OkHttpClient"),
              (["app", "proguard-rules.pro"],
               "# AstralStream ProGuard Rules\n-keep class com.astralplayer.security.**\n-keepattributes Signature\n-dontwarn okio.**\n-keep class kotlinx.serialization.**\n-keepclassmembers enum *"),
              (["app", "src", "main", "java", "com", "astralplayer", "security", "BiometricAuthManager.kt"],
               "package com.astralplayer.security\nimport android.content.Context\nclass BiometricAuthManager\nval biometricManager = BiometricManager.from(context)\nfun canAuthenticate(): Boolean"),
              (["app", "src", "main", "java", "com", "astralplayer", "security", "AdvancedEncryptionManager.kt"],
               "package com.astralplayer.security\nimport android.content.Context\nimport androidx.security.crypto.EncryptedSharedPreferences\nimport javax.crypto.Cipher\nclass AdvancedEncryptionManager\nfun encryptData\nfun decryptData")],
    locked := [] }

def fx_modsSec : List Modification :=
  [{ file := "app/src/main/java/com/astralplayer/network/security/SecureNetworkClient.kt",
     description := "Implemented certificate pinning" },
   { file := "app/proguard-rules.pro", description := "Enhanced ProGuard obfuscation rules" },
   { file := "app/src/main/java/com/astralplayer/security/BiometricAuthManager.kt",
     description := "Implemented biometric authentication" },
   { file := "app/src/main/java/com/astralplayer/security/AdvancedEncryptionManager.kt",
     description := "Enhanced data encryption" }]

def fx_outSec : Except String FixOutcome :=
  Except.ok { fixed := 2, total := 2 }

def fx_treeA4 : FileTree :=
  { dirs := [["app"],
             ["app", "src"],
             ["app", "src", "test"],
             ["app", "src", "androidTest"],
             ["app", "src", "androidTest", "java"],
             ["app", "src", "androidTest", "java", "com"],
             ["app", "src", "androidTest", "java", "com", "astralplayer"],
             ["app", "src", "androidTest", "java", "com", "astralplayer", "integration"],
             ["app", "src", "androidTest", "java", "com", "astralplayer", "ui"],
             ["benchmark"],
             ["benchmark", "src"],
             ["benchmark", "src", "androidTest"],
             ["benchmark", "src", "androidTest", "java"],
             ["benchmark", "src", "androidTest", "java", "com"],
             ["benchmark", "src", "androidTest", "java", "com", "astralplayer"],
             ["benchmark", "src", "androidTest", "java", "com", "astralplayer", "benchmark"],
             ["app", "src", "main"],
             ["app", "src", "main", "java"],
             ["app", "src", "main", "java", "com"],
             ["app", "src", "main", "java", "com", "astralplayer"],
             ["app", "src", "main", "java", "com", "astralplayer", "presentation"],
             ["app", "src", "main", "java", "com", "astralplayer", "presentation", "navigation"],
             ["app", "src", "main", "java", "com", "astralplayer", "domain"],
             ["app", "src", "main", "java", "com", "astralplayer", "domain", "repository"],
             ["app", "src", "main", "java", "com", "astralplayer", "domain", "usecase"],
             ["app", "src", "main", "java", "com", "astralplayer", "network"],
             ["app", "src", "main", "java", "com", "astralplayer", "network", "security"],
             ["app", "src", "main", "java", "com", "astralplayer", "security"],
             ["app", "src", "main", "java", "com", "astralplayer", "performance"]],
    files := [(["app", "src", "androidTest", "java", "com", "astralplayer", "integration",
                "VideoPlayerIntegrationTest.kt"],
               "package com.astralplayer.integration\nimport androidx.test.ext.junit.runners.AndroidJUnit4\nval context = InstrumentationRegistry.getInstrumentation().targetContext\nclass VideoPlayerIntegrationTest\nfun testVideoIntentToPlayback\nfun testAISubtitleGeneration"),
              (["app", "src", "androidTest", "java", "com", "astralplayer", "ui", "VideoPlayerUITest.kt"],
               "package com.astralplayer.ui\nimport androidx.compose.ui.test.junit4.createAndroidComposeRule\nclass VideoPlayerUITest\nfun testPlayerControlsVisibility\nfun testGestureControls"),
              (["benchmark", "src", "androidTest", "java", "com", "astralplayer", "benchmark", "VideoPlayerBenchmark.kt"],
               "package com.astralplayer.benchmark\nimport androidx.benchmark.junit4.BenchmarkRule\nclass VideoPlayerBenchmark\nfun benchmarkVideoLoading\nfun benchmarkSubtitleParsing"),
              (["app", "src", "main", "java", "com", "astralplayer", "presentation", "navigation",
                "AstralStreamNavigation.kt"],
               "package com.astralplayer.presentation.navigation\nimport androidx.navigation.compose.NavHost\nfun AstralStreamNavigation(navController: NavHostController)\nsealed class NavigationRoute"),
              (["app", "src", "main", "java", "com", "astralplayer", "domain", "repository", "VideoPlayerRepository.kt"],
               "package com.astralplayer.domain.repository\ninterface VideoPlayerRepository"),
              (["app", "src", "main", "java", "com", "astralplayer", "domain", "repository", "SubtitleRepository.kt"],
               "package com.astralplayer.domain.repository\ninterface SubtitleRepository"),
              (["app", "src", "main", "java", "com", "astralplayer", "domain", "repository", "CloudStorageRepository.kt"],
               "package com.astralplayer.domain.repository\ninterface CloudStorageRepository"),
              (["app", "src", "main", "java", "com", "astralplayer", "domain", "usecase", "PlayVideoUseCase.kt"],
               "package com.astralplayer.domain.usecase\nclass PlayVideoUseCase"),
              (["app", "src", "main", "java", "com", "astralplayer", "domain", "usecase", "GenerateSubtitlesUseCase.kt"],
               "package com.astralplayer.domain.usecase\nclass GenerateSubtitlesUseCase"),
              (["app", "src", "main", "java", "com", "astralplayer", "network", "security", "SecureNetworkClient.kt"],
               "package com.astralplayer.network.security\nimport okhttp3.CertificatePinner\nclass SecureNetworkClient\nval certificatePinner = CertificatePinner.Builder().build()\nfun createSecureClient(): OkHttpClient"),
              (["app", "proguard-rules.pro"],
               "# AstralStream ProGuard Rules\n-keep class com.astralplayer.security.**\n-keepattributes Signature\n-dontwarn okio.**\n-keep class kotlinx.serialization.**\n-keepclassmembers enum *"),
              (["app", "src", "main", "java", "com", "astralplayer", "security", "BiometricAuthManager.kt"],
               "package com.astralplayer.security\nimport android.content.Context\nclass BiometricAuthManager\nval biometricManager = BiometricManager.from(context)\nfun canAuthenticate(): Boolean"),
              (["app", "src", "main", "java", "com", "astralplayer", "security", "AdvancedEncryptionManager.kt"],
               "package com.astralplayer.security\nimport android.content.Context\nimport androidx.security.crypto.EncryptedSharedPreferences\nimport javax.crypto.Cipher\nclass AdvancedEncryptionManager\nfun encryptData\nfun decryptData"),
              (["app", "src", "main", "baseline-prof.txt"],
               "# Baseline Profile for AstralStream\nHSPLcom/astralplayer/MainActivity\nLandroid/content/Context"),
              (["app", "src", "main", "java", "com", "astralplayer", "performance", "LazyComponentLoader.kt"],
               "package com.astralplayer.performance\nimport kotlinx.coroutines.withContext\nclass LazyComponentLoader\nfun preloadComponents = withContext(Dispatchers.IO)"),
              (["app", "src", "main", "java", "com", "astralplayer", "performance", "AdvancedPerformanceMonitor.kt"],
               "package com.astralplayer.performance\nclass AdvancedPerformanceMonitor\nfun startMonitoring\nfun trackFrameMetrics")],
    locked := [] }

def fx_modsPerf : List Modification :=
  [{ file := "app/src/main/baseline-prof.txt", description := "Created baseline profile" },
   { file := "build.gradle", description := "Optimized build configuration" },
   { file := "app/src/main/java/com/astralplayer/performance/LazyComponentLoader.kt",
     description := "Implemented lazy loading" },
   { file := "app/src/main/java/com/astralplayer/performance/AdvancedPerformanceMonitor.kt",
     description := "Added advanced performance monitoring" }]

def fx_outPerf : Except String FixOutcome :=
  Except.ok { fixed := 1, total := 1 }

def fx_treeA5 : FileTree :=
  { dirs := [["app"],
             ["app", "src"],
             ["app", "src", "test"],
             ["app", "src", "androidTest"],
             ["app", "src", "androidTest", "java"],
             ["app", "src", "androidTest", "java", "com"],
             ["app", "src", "androidTest", "java", "com", "astralplayer"],
             ["app", "src", "androidTest", "java", "com", "astralplayer", "integration"],
             ["app", "src", "androidTest", "java", "com", "astralplayer", "ui"],
             ["benchmark"],
             ["benchmark", "src"],
             ["benchmark", "src", "androidTest"],
             ["benchmark", "src", "androidTest", "java"],
             ["benchmark", "src", "androidTest", "java", "com"],
             ["benchmark", "src", "androidTest", "java", "com", "astralplayer"],
             ["benchmark", "src", "androidTest", "java", "com", "astralplayer", "benchmark"],
             ["app", "src", "main"],
             ["app", "src", "main", "java"],
             ["app", "src", "main", "java", "com"],
             ["app", "src", "main", "java", "com", "astralplayer"],
             ["app", "src", "main", "java", "com", "astralplayer", "presentation"],
             ["app", "src", "main", "java", "com", "astralplayer", "presentation", "navigation"],
             ["app", "src", "main", "java", "com", "astralplayer", "domain"],
             ["app", "src", "main", "java", "com", "astralplayer", "domain", "repository"],
             ["app", "src", "main", "java", "com", "astralplayer", "domain", "usecase"],
             ["app", "src", "main", "java", "com", "astralplayer", "network"],
             ["app", "src", "main", "java", "com", "astralplayer", "network", "security"],
             ["app", "src", "main", "java", "com", "astralplayer", "security"],
             ["app", "src", "main", "java", "com", "astralplayer", "performance"],
             ["docs"]],
    files := [(["app", "src", "androidTest", "java", "com", "astralplayer", "integration",
                "VideoPlayerIntegrationTest.kt"],
               "package com.astralplayer.integration\nimport androidx.test.ext.junit.runners.AndroidJUnit4\nval context = InstrumentationRegistry.getInstrumentation().targetContext\nclass VideoPlayerIntegrationTest\nfun testVideoIntentToPlayback\nfun testAISubtitleGeneration"),
              (["app", "src", "androidTest", "java", "com", "astralplayer", "ui", "VideoPlayerUITest.kt"],
               "package com.astralplayer.ui\nimport androidx.compose.ui.test.junit4.createAndroidComposeRule\nclass VideoPlayerUITest\nfun testPlayerControlsVisibility\nfun testGestureControls"),
              (["benchmark", "src", "androidTest", "java", "com", "astralplayer", "benchmark", "VideoPlayerBenchmark.kt"],
               "package com.astralplayer.benchmark\nimport androidx.benchmark.junit4.BenchmarkRule\nclass VideoPlayerBenchmark\nfun benchmarkVideoLoading\nfun benchmarkSubtitleParsing"),
              (["app", "src", "main", "java", "com", "astralplayer", "presentation", "navigation",
                "AstralStreamNavigation.kt"],
               "package com.astralplayer.presentation.navigation\nimport androidx.navigation.compose.NavHost\nfun AstralStreamNavigation(navController: NavHostController)\nsealed class NavigationRoute"),
              (["app", "src", "main", "java", "com", "astralplayer", "domain", "repository", "VideoPlayerRepository.kt"],
               "package com.astralplayer.domain.repository\ninterface VideoPlayerRepository"),
              (["app", "src", "main", "java", "com", "astralplayer", "domain", "repository", "SubtitleRepository.kt"],
               "package com.astralplayer.domain.repository\ninterface SubtitleRepository"),
              (["app", "src", "main", "java", "com", "astralplayer", "domain", "repository", "CloudStorageRepository.kt"],
               "package com.astralplayer.domain.repository\ninterface CloudStorageRepository"),
              (["app", "src", "main", "java", "com", "astralplayer", "domain", "usecase", "PlayVideoUseCase.kt"],
               "package com.astralplayer.domain.usecase\nclass PlayVideoUseCase"),
              (["app", "src", "main", "java", "com", "astralplayer", "domain", "usecase", "GenerateSubtitlesUseCase.kt"],
               "package com.astralplayer.domain.usecase\nclass GenerateSubtitlesUseCase"),
              (["app", "src", "main", "java", "com", "astralplayer", "network", "security", "SecureNetworkClient.kt"],
               "package com.astralplayer.network.security\nimport okhttp3.CertificatePinner\nclass SecureNetworkClient\nval certificatePinner = CertificatePinner.Builder().build()\nfun createSecureClient(): OkHttpClient"),
              (["app", "proguard-rules.pro"],
               "# AstralStream ProGuard Rules\n-keep class com.astralplayer.security.**\n-keepattributes Signature\n-dontwarn okio.**\n-keep class kotlinx.serialization.**\n-keepclassmembers enum *"),
              (["app", "src", "main", "java", "com", "astralplayer", "security", "BiometricAuthManager.kt"],
               "package com.astralplayer.security\nimport android.content.Context\nclass BiometricAuthManager\nval biometricManager = BiometricManager.from(context)\nfun canAuthenticate(): Boolean"),
              (["app", "src", "main", "java", "com", "astralplayer", "security", "AdvancedEncryptionManager.kt"],
               "package com.astralplayer.security\nimport android.content.Context\nimport androidx.security.crypto.EncryptedSharedPreferences\nimport javax.crypto.Cipher\nclass AdvancedEncryptionManager\nfun encryptData\nfun decryptData"),
              (["app", "src", "main", "baseline-prof.txt"],
               "# Baseline Profile for AstralStream\nHSPLcom/astralplayer/MainActivity\nLandroid/content/Context"),
              (["app", "src", "main", "java", "com", "astralplayer", "performance", "LazyComponentLoader.kt"],
               "package com.astralplayer.performance\nimport kotlinx.coroutines.withContext\nclass LazyComponentLoader\nfun preloadComponents = withContext(Dispatchers.IO)"),
              (["app", "src", "main", "java", "com", "astralplayer", "performance", "AdvancedPerformanceMonitor.kt"],
               "package com.astralplayer.performance\nclass AdvancedPerformanceMonitor\nfun startMonitoring\nfun trackFrameMetrics"),
              (["README.md"], "# AstralStream Video Player\nOverview. Features. Quick Start. Architecture. License MIT."),
              (["docs", "API.md"], "# AstralStream API Documentation\nCore APIs. VideoPlayerManager. SubtitleGenerator."),
              (["docs", "ARCHITECTURE.md"],
               "# AstralStream Architecture\nClean Architecture. Presentation. Domain. Data layers."),
              (["docs", "SETUP.md"], "# AstralStream Setup Guide\nPrerequisites. Installation. Troubleshooting."),
              (["CONTRIBUTING.md"], "# Contributing to AstralStream\nCode of Conduct. Pull Requests. Style Guidelines.")],
    locked := [] }

def fx_modsDoc : List Modification :=
  [{ file := "README.md", description := "Generated comprehensive README" },
   { file := "docs/API.md", description := "Generated API documentation" },
   { file := "docs/ARCHITECTURE.md", description := "Generated architecture documentation" },
   { file := "docs/SETUP.md", description := "Generated setup guide" },
   { file := "CONTRIBUTING.md", description := "Generated contributing guide" }]

def fx_outDoc : Except String FixOutcome :=
  Except.ok { fixed := 2, total := 2 }

def fx_treeA6 : FileTree :=
  { dirs := [["app"],
             ["app", "src"],
             ["app", "src", "test"],
             ["app", "src", "androidTest"],
             ["app", "src", "androidTest", "java"],
             ["app", "src", "androidTest", "java", "com"],
             ["app", "src", "androidTest", "java", "com", "astralplayer"],
             ["app", "src", "androidTest", "java", "com", "astralplayer", "integration"],
             ["app", "src", "androidTest", "java", "com", "astralplayer", "ui"],
             ["benchmark"],
             ["benchmark", "src"],
             ["benchmark", "src", "androidTest"],
             ["benchmark", "src", "androidTest", "java"],
             ["benchmark", "src", "androidTest", "java", "com"],
             ["benchmark", "src", "androidTest", "java", "com", "astralplayer"],
             ["benchmark", "src", "androidTest", "java", "com", "astralplayer", "benchmark"],
             ["app", "src", "main"],
             ["app", "src", "main", "java"],
             ["app", "src", "main", "java", "com"],
             ["app", "src", "main", "java", "com", "astralplayer"],
             ["app", "src", "main", "java", "com", "astralplayer", "presentation"],
             ["app", "src", "main", "java", "com", "astralplayer", "presentation", "navigation"],
             ["app", "src", "main", "java", "com", "astralplayer", "domain"],
             ["app", "src", "main", "java", "com", "astralplayer", "domain", "repository"],
             ["app", "src", "main", "java", "com", "astralplayer", "domain", "usecase"],
             ["app", "src", "main", "java", "com", "astralplayer", "network"],
             ["app", "src", "main", "java", "com", "astralplayer", "network", "security"],
             ["app", "src", "main", "java", "com", "astralplayer", "security"],
             ["app", "src", "main", "java", "com", "astralplayer", "performance"],
             ["docs"]],
    files := [(["app", "src", "androidTest", "java", "com", "astralplayer", "integration",
                "VideoPlayerIntegrationTest.kt"],
               "package com.astralplayer.integration\nimport androidx.test.ext.junit.runners.AndroidJUnit4\nval context = InstrumentationRegistry.getInstrumentation().targetContext\nclass VideoPlayerIntegrationTest\nfun testVideoIntentToPlayback\nfun testAISubtitleGeneration"),
              (["app", "src", "androidTest", "java", "com", "astralplayer", "ui", "VideoPlayerUITest.kt"],
               "package com.astralplayer.ui\nimport androidx.compose.ui.test.junit4.createAndroidComposeRule\nclass VideoPlayerUITest\nfun testPlayerControlsVisibility\nfun testGestureControls"),
              (["benchmark", "src", "androidTest", "java", "com", "astralplayer", "benchmark", "VideoPlayerBenchmark.kt"],
               "package com.astralplayer.benchmark\nimport androidx.benchmark.junit4.BenchmarkRule\nclass VideoPlayerBenchmark\nfun benchmarkVideoLoading\nfun benchmarkSubtitleParsing"),
              (["app", "src", "main", "java", "com", "astralplayer", "presentation", "navigation",
                "AstralStreamNavigation.kt"],
               "package com.astralplayer.presentation.navigation\nimport androidx.navigation.compose.NavHost\nfun AstralStreamNavigation(navController: NavHostController)\nsealed class NavigationRoute"),
              (["app", "src", "main", "java", "com", "astralplayer", "domain", "repository", "VideoPlayerRepository.kt"],
               "package com.astralplayer.domain.repository\ninterface VideoPlayerRepository"),
              (["app", "src", "main", "java", "com", "astralplayer", "domain", "repository", "SubtitleRepository.kt"],
               "package com.astralplayer.domain.repository\ninterface SubtitleRepository"),
              (["app", "src", "main", "java", "com", "astralplayer", "domain", "repository", "CloudStorageRepository.kt"],
               "package com.astralplayer.domain.repository\ninterface CloudStorageRepository"),
              (["app", "src", "main", "java", "com", "astralplayer", "domain", "usecase", "PlayVideoUseCase.kt"],
               "package com.astralplayer.domain.usecase\nclass PlayVideoUseCase"),
              (["app", "src", "main", "java", "com", "astralplayer", "domain", "usecase", "GenerateSubtitlesUseCase.kt"],
               "package com.astralplayer.domain.usecase\nclass GenerateSubtitlesUseCase"),
              (["app", "src", "main", "java", "com", "astralplayer", "network", "security", "SecureNetworkClient.kt"],
               "package com.astralplayer.network.security\nimport okhttp3.CertificatePinner\nclass SecureNetworkClient\nval certificatePinner = CertificatePinner.Builder().build()\nfun createSecureClient(): OkHttpClient"),
              (["app", "proguard-rules.pro"],
               "# AstralStream ProGuard Rules\n-keep class com.astralplayer.security.**\n-keepattributes Signature\n-dontwarn okio.**\n-keep class kotlinx.serialization.**\n-keepclassmembers enum *"),
              (["app", "src", "main", "java", "com", "astralplayer", "security", "BiometricAuthManager.kt"],
               "package com.astralplayer.security\nimport android.content.Context\nclass BiometricAuthManager\nval biometricManager = BiometricManager.from(context)\nfun canAuthenticate(): Boolean"),
              (["app", "src", "main", "java", "com", "astralplayer", "security", "AdvancedEncryptionManager.kt"],
               "package com.astralplayer.security\nimport android.content.Context\nimport androidx.security.crypto.EncryptedSharedPreferences\nimport javax.crypto.Cipher\nclass AdvancedEncryptionManager\nfun encryptData\nfun decryptData"),
              (["app", "src", "main", "baseline-prof.txt"],
               "# Baseline Profile for AstralStream\nHSPLcom/astralplayer/MainActivity\nLandroid/content/Context"),
              (["app", "src", "main", "java", "com", "astralplayer", "performance", "LazyComponentLoader.kt"],
               "package com.astralplayer.performance\nimport kotlinx.coroutines.withContext\nclass LazyComponentLoader\nfun preloadComponents = withContext(Dispatchers.IO)"),
              (["app", "src", "main", "java", "com", "astralplayer", "performance", "AdvancedPerformanceMonitor.kt"],
               "package com.astralplayer.performance\nclass AdvancedPerformanceMonitor\nfun startMonitoring\nfun trackFrameMetrics"),
              (["README.md"], "# AstralStream Video Player\nOverview. Features. Quick Start. Architecture. License MIT."),
              (["docs", "API.md"], "# AstralStream API Documentation\nCore APIs. VideoPlayerManager. SubtitleGenerator."),
              (["docs", "ARCHITECTURE.md"],
               "# AstralStream Architecture\nClean Architecture. Presentation. Domain. Data layers."),
              (["docs", "SETUP.md"], "# AstralStream Setup Guide\nPrerequisites. Installation. Troubleshooting."),
              (["CONTRIBUTING.md"], "# Contributing to AstralStream\nCode of Conduct. Pull Requests. Style Guidelines."),
              (["EXPERT_TEAM_REPORT.md"],
               "# AstralStream Expert Team Upgrade Report\nResult: INCOMPLETE\nTotal files modified: 24")],
    locked := [] }

def fx_outReport : Except String Unit :=
  Except.ok ()

def fx_treeL1 : FileTree :=
  { dirs := [["app"],
             ["app", "src"],
             ["app", "src", "test"],
             ["app", "src", "androidTest"],
             ["app", "src", "androidTest", "java"],
             ["app", "src", "androidTest", "java", "com"],
             ["app", "src", "androidTest", "java", "com", "astralplayer"],
             ["app", "src", "androidTest", "java", "com", "astralplayer", "integration"]],
    files := [],
    locked := [["app", "src", "androidTest", "java", "com", "astralplayer", "integration",
                "VideoPlayerIntegrationTest.kt"]] }

def fx_modsL : List Modification :=
  [{ file := "app/src/test", description := "Created test directory" },
   { file := "app/src/androidTest", description := "Created test directory" }]

def fx_outL : Except String FixOutcome :=
  Except.error "PermissionError"

/-- The resource-failure scenario of §8: a pristine project whose
integration-test target path the filesystem refuses to write. -/
def fx_tLock : FileTree := ⟨[], [], [TestCoverageAgent.integration_test_path]⟩

/-- The agent-run records of the full run on the empty tree. -/
def fx_runsA : List AgentRun :=
  [⟨"TestCoverageAgent", fx_issTC, emptyTree, fx_treeA1, fx_modsTC, some ⟨2, 2⟩⟩,
   ⟨"ArchitectureAgent", fx_issArch, fx_treeA1, fx_treeA2, fx_modsArch, some ⟨1, 1⟩⟩,
   ⟨"SecurityAgent", fx_issSec, fx_treeA2, fx_treeA3, fx_modsSec, some ⟨2, 2⟩⟩,
   ⟨"PerformanceAgent", fx_issPerf, fx_treeA3, fx_treeA4, fx_modsPerf, some ⟨1, 1⟩⟩,
   ⟨"DocumentationAgent", fx_issDoc, fx_treeA4, fx_treeA5, fx_modsDoc, some ⟨2, 2⟩⟩]

def fx_valsA : List Bool := [false, false, false, true, true]

/-- The lone agent-run record of the aborted run on `fx_tLock`. -/
def fx_runL : AgentRun :=
  ⟨"TestCoverageAgent", fx_issTC, fx_tLock, fx_treeL1, fx_modsL, none⟩

/-!
Derived forms used by the idempotence and failure-isolation analyses.
-/

/-- A `missing_test_directory` issue as `TestCoverageAgent.analyze`
produces it. -/
def dirIssue (p : Path) : Issue :=
  { type := "missing_test_directory", path := p, severity := "high" }

/-- Association lookup on the file list (`find?` keyed on the path). -/
def lookupFile (fs : List (Path × String)) (p : Path) : Option (Path × String) :=
  fs.find? (fun x => x.1 = p)

/-- The tree effect of one generated artifact: register the parent
directories, then write the payload. -/
def applyGen (t : FileTree) (p : Path) (c : String) : FileTree :=
  { dirs := (registerDirs t p.dropLast).dirs,
    files := setFile (registerDirs t p.dropLast).files p c,
    locked := (registerDirs t p.dropLast).locked }

/-- The combined tree effect of the three unconditional test-suite
artifacts of `TestCoverageAgent.fix`. -/
def tcGens (t : FileTree) : FileTree :=
  applyGen
    (applyGen
      (applyGen t TestCoverageAgent.integration_test_path TestCoverageAgent.integration_test)
      TestCoverageAgent.ui_test_path TestCoverageAgent.ui_test)
    TestCoverageAgent.perf_test_path TestCoverageAgent.perf_test

/-- The four ledger entries one `fix [dirIssue p]` call appends, in the
nested shape `add_modification` produces. -/
def tcDirMods (ms : List Modification) (p : Path) : List Modification :=
  (((ms ++ [⟨pathStr p, "Created test directory"⟩]) ++
    [⟨pathStr TestCoverageAgent.integration_test_path, "Generated integration tests"⟩]) ++
    [⟨pathStr TestCoverageAgent.ui_test_path, "Generated UI tests"⟩]) ++
    [⟨pathStr TestCoverageAgent.perf_test_path, "Generated performance benchmarks"⟩]

/-- The write-protected single-file project of the failure-isolation
scenario: one Kotlin file the filesystem refuses to rewrite. -/
def secFile : Path := ["app", "src", "main", "java", "com", "astralplayer", "Api.kt"]

def tSec (c : String) : FileTree := ⟨[], [(secFile, c)], [secFile]⟩

/-- An `insecure_http` issue for the protected file, as
`SecurityAgent.analyze` produces it. -/
def httpIssue : Issue := { type := "insecure_http", file := secFile, severity := "high" }

/-- An `insufficient_obfuscation` issue, as `SecurityAgent.analyze`
produces it. -/
def obfIssue : Issue := { type := "insufficient_obfuscation", severity := "medium" }

end AstralTeam

open AstralTeam

set_option maxRecDepth 40000
set_option maxHeartbeats 2000000

/-!
Step lemmas: each phase of the two concrete runs (full run on the empty
tree; aborted run on the write-protected tree), verified against the
pinned fixtures by kernel evaluation.
-/

theorem analyze_empty_tc : TestCoverageAgent.analyze emptyTree = fx_issTC := rfl

theorem analyze_empty_arch : ArchitectureAgent.analyze emptyTree = fx_issArch := rfl

theorem analyze_empty_sec : SecurityAgent.analyze emptyTree = fx_issSec := rfl

theorem analyze_empty_perf : PerformanceAgent.analyze emptyTree = fx_issPerf := rfl

theorem analyze_empty_doc : DocumentationAgent.analyze emptyTree = fx_issDoc := rfl

theorem analyses_empty : analysesOf emptyTree =
    [(tcSpec, fx_issTC), (archSpec, fx_issArch), (secSpec, fx_issSec),
     (perfSpec, fx_issPerf), (docSpec, fx_issDoc)] := rfl

theorem fix_step_tc :
    TestCoverageAgent.fix fx_issTC ⟨emptyTree, []⟩ =
      (⟨fx_treeA1, fx_modsTC⟩, Except.ok ⟨2, 2⟩) := rfl

theorem fix_step_arch :
    ArchitectureAgent.fix fx_issArch ⟨fx_treeA1, []⟩ =
      (⟨fx_treeA2, fx_modsArch⟩, Except.ok ⟨1, 1⟩) := rfl

theorem fix_step_sec :
    SecurityAgent.fix fx_issSec ⟨fx_treeA2, []⟩ =
      (⟨fx_treeA3, fx_modsSec⟩, Except.ok ⟨2, 2⟩) := rfl

theorem fix_step_perf :
    PerformanceAgent.fix fx_issPerf ⟨fx_treeA3, []⟩ =
      (⟨fx_treeA4, fx_modsPerf⟩, Except.ok ⟨1, 1⟩) := rfl

theorem fix_step_doc :
    DocumentationAgent.fix fx_issDoc ⟨fx_treeA4, []⟩ =
      (⟨fx_treeA5, fx_modsDoc⟩, Except.ok ⟨2, 2⟩) := rfl

theorem vals_step :
    valsOf fx_runsA fx_treeA5 = fx_valsA := rfl

theorem analyses_locked : analysesOf fx_tLock =
    [(tcSpec, fx_issTC), (archSpec, fx_issArch), (secSpec, fx_issSec),
     (perfSpec, fx_issPerf), (docSpec, fx_issDoc)] := rfl

theorem fix_step_locked :
    TestCoverageAgent.fix fx_issTC ⟨fx_tLock, []⟩ =
      (⟨fx_treeL1, fx_modsL⟩, Except.error "PermissionError") := rfl

/-- The integer comparison in `TestCoverageAgent.validate` is exactly the
`>= 85` threshold test on the rational `_estimate_coverage` value. -/
theorem tc_validate_eq_coverage (s : AgentSt) (t : FileTree) :
    TestCoverageAgent.validate s t =
      decide ((85 : ℚ) ≤ TestCoverageAgent.estimate_coverage t) := by
  unfold TestCoverageAgent.validate TestCoverageAgent.estimate_coverage
  rcases Nat.eq_zero_or_pos (TestCoverageAgent.coverageCounts t).1 with h0 | hpos
  · simp [h0]
  · have hS0 : (TestCoverageAgent.coverageCounts t).1 ≠ 0 := Nat.pos_iff_ne_zero.mp hpos
    have hSQ : (0 : ℚ) < ((TestCoverageAgent.coverageCounts t).1 : ℚ) := by
      exact_mod_cast hpos
    have h1 : decide ((TestCoverageAgent.coverageCounts t).1 ≠ 0) = true := by
      simp [hS0]
    rw [if_neg hS0, h1, Bool.true_and, decide_eq_decide, le_min_iff,
      div_mul_eq_mul_div, le_div_iff hSQ]
    constructor
    · intro h
      refine ⟨?_, by norm_num⟩
      calc (85 : ℚ) * (TestCoverageAgent.coverageCounts t).1
          = ((85 * (TestCoverageAgent.coverageCounts t).1 : ℕ) : ℚ) := by push_cast; ring
        _ ≤ ((100 * (TestCoverageAgent.coverageCounts t).2 : ℕ) : ℚ) := by exact_mod_cast h
        _ = ((TestCoverageAgent.coverageCounts t).2 : ℚ) * 100 := by push_cast; ring
    · rintro ⟨h, -⟩
      have h' : ((85 * (TestCoverageAgent.coverageCounts t).1 : ℕ) : ℚ) ≤
          ((100 * (TestCoverageAgent.coverageCounts t).2 : ℕ) : ℚ) := by
        push_cast
        calc (85 : ℚ) * (TestCoverageAgent.coverageCounts t).1
            ≤ ((TestCoverageAgent.coverageCounts t).2 : ℚ) * 100 := h
          _ = 100 * (TestCoverageAgent.coverageCounts t).2 := by ring
      exact_mod_cast h'

/-!
Characterization of the fixing phase and of `runFullUpgrade`, used both
for the structural claims and to assemble the concrete runs from the
step lemmas.
-/

theorem fixPhase_nil (t : FileTree) : fixPhase [] t = ([], t, none) := rfl

theorem fixPhase_skip {a : AgentSpec} {iss : List Issue} {rest t}
    (he : iss.isEmpty = true) :
    fixPhase ((a, iss) :: rest) t =
      (⟨a.name, iss, t, t, [], none⟩ :: (fixPhase rest t).1,
       (fixPhase rest t).2.1, (fixPhase rest t).2.2) := by
  simp [fixPhase, he]

theorem fixPhase_cons_ok {a : AgentSpec} {iss : List Issue} {rest t tr ms o}
    (h : a.fix iss ⟨t, []⟩ = (⟨tr, ms⟩, Except.ok o)) (hne : iss.isEmpty = false) :
    fixPhase ((a, iss) :: rest) t =
      (⟨a.name, iss, t, tr, ms, some o⟩ :: (fixPhase rest tr).1,
       (fixPhase rest tr).2.1, (fixPhase rest tr).2.2) := by
  simp [fixPhase, hne, h]

theorem fixPhase_cons_err {a : AgentSpec} {iss : List Issue} {rest t tr ms e}
    (h : a.fix iss ⟨t, []⟩ = (⟨tr, ms⟩, Except.error e)) (hne : iss.isEmpty = false) :
    fixPhase ((a, iss) :: rest) t = ([⟨a.name, iss, t, tr, ms, none⟩], tr, some e) := by
  simp [fixPhase, hne, h]

theorem fixPhase_empty_chain :
    fixPhase [(tcSpec, fx_issTC), (archSpec, fx_issArch), (secSpec, fx_issSec),
      (perfSpec, fx_issPerf), (docSpec, fx_issDoc)] emptyTree =
      (fx_runsA, fx_treeA5, none) := by
  rw [fixPhase_cons_ok fix_step_tc (by rfl), fixPhase_cons_ok fix_step_arch (by rfl),
    fixPhase_cons_ok fix_step_sec (by rfl), fixPhase_cons_ok fix_step_perf (by rfl),
    fixPhase_cons_ok fix_step_doc (by rfl), fixPhase_nil]
  rfl

theorem fixPhase_empty_run :
    fixPhase (analysesOf emptyTree) emptyTree = (fx_runsA, fx_treeA5, none) := by
  rw [analyses_empty]
  exact fixPhase_empty_chain

theorem fixPhase_locked_run :
    fixPhase (analysesOf fx_tLock) fx_tLock =
      ([fx_runL], fx_treeL1, some "PermissionError") := by
  rw [analyses_locked, fixPhase_cons_err fix_step_locked (by rfl)]
  rfl

theorem run_err_facts {t : FileTree} {runs tF e}
    (h : fixPhase (analysesOf t) t = (runs, tF, some e)) :
    (runFullUpgrade t).result = Except.error e ∧
    (runFullUpgrade t).finalTree = tF ∧
    (runFullUpgrade t).backup = t ∧
    (runFullUpgrade t).agentRuns = runs ∧
    (runFullUpgrade t).validations = [] := by
  simp [runFullUpgrade, h]

theorem run_ok_facts {t : FileTree} {runs tF}
    (h : fixPhase (analysesOf t) t = (runs, tF, none))
    (hw : report_path ∉ tF.locked) :
    (runFullUpgrade t).result = Except.ok (allValidOf (valsOf runs tF)) ∧
    (runFullUpgrade t).validations = valsOf runs tF ∧
    (runFullUpgrade t).agentRuns = runs ∧
    (runFullUpgrade t).backup = t := by
  simp [runFullUpgrade, h, writeText, hw]

theorem runEmpty_facts :
    (runFullUpgrade emptyTree).result = Except.ok false ∧
    (runFullUpgrade emptyTree).validations = fx_valsA ∧
    (runFullUpgrade emptyTree).agentRuns = fx_runsA := by
  have h := run_ok_facts fixPhase_empty_run (by decide)
  rw [vals_step] at h
  have hv : allValidOf fx_valsA = false := rfl
  rw [hv] at h
  exact ⟨h.1, h.2.1, h.2.2.1⟩

theorem runLocked_facts :
    (runFullUpgrade fx_tLock).result = Except.error "PermissionError" ∧
    (runFullUpgrade fx_tLock).finalTree = fx_treeL1 ∧
    (runFullUpgrade fx_tLock).backup = fx_tLock := by
  have h := run_err_facts fixPhase_locked_run
  exact ⟨h.1, h.2.1, h.2.2.1⟩

/-- The sequential conjunction fold of phase 3 computes the logical AND
of all validation verdicts. -/
theorem allValidOf_eq_all (l : List Bool) : allValidOf l = l.all id := by
  have aux : ∀ (l : List Bool) (acc : Bool),
      l.foldl (fun a v => a && v) acc = (acc && l.all id) := by
    intro l
    induction l with
    | nil => intro acc; rw [List.foldl_nil, List.all_nil, Bool.and_true]
    | cons x xs ih =>
      intro acc
      rw [List.foldl_cons, ih (acc && x), List.all_cons, Bool.and_assoc]
      rfl
  rw [allValidOf, aux l true, Bool.true_and]

theorem mainExit_of_err {t : FileTree} {e : String}
    (h : (runFullUpgrade t).result = Except.error e) : mainExit t = 1 := by
  unfold mainExit
  rw [h]

theorem mainExit_of_ok {t : FileTree} {b : Bool}
    (h : (runFullUpgrade t).result = Except.ok b) :
    mainExit t = if b then 0 else 1 := by
  unfold mainExit
  rw [h]
  cases b <;> rfl

theorem run_wfail_result {t : FileTree} {runs tF}
    (h : fixPhase (analysesOf t) t = (runs, tF, none))
    (hw : report_path ∈ tF.locked) :
    (runFullUpgrade t).result = Except.error "PermissionError" ∧
    (runFullUpgrade t).agentRuns = runs := by
  simp [runFullUpgrade, h, writeText, hw]

/-!
Claim theorems.
-/

/-- C3: for every run that reaches the terminal state, the overall
success verdict equals the logical AND of every agent's final
`validate()` result, and the process exit status is 0 when that
conjunction is true and 1 when at least one validation failed. -/
theorem c3_success_is_and_of_validations (t : FileTree) (b : Bool)
    (h : (runFullUpgrade t).result = Except.ok b) :
    b = (runFullUpgrade t).validations.all id ∧
    mainExit t = (if b then 0 else 1) := by
  refine ⟨?_, mainExit_of_ok h⟩
  rcases hfp : fixPhase (analysesOf t) t with ⟨runs, tF, err⟩
  cases err with
  | some e =>
    rw [(run_err_facts hfp).1] at h
    exact absurd h (by simp)
  | none =>
    by_cases hw : report_path ∈ tF.locked
    · rw [(run_wfail_result hfp hw).1] at h
      exact absurd h (by simp)
    · obtain ⟨h1, h2, -, -⟩ := run_ok_facts hfp hw
      rw [h1] at h
      have hb : allValidOf (valsOf runs tF) = b := Except.ok.inj h
      rw [h2, ← hb, allValidOf_eq_all]

/-- C3 witness: the full run on the empty tree terminates with
`Except.ok false`, and the exit status is 1. -/
theorem c3_success_is_and_of_validations_witness :
    false = (runFullUpgrade emptyTree).validations.all id ∧
    mainExit emptyTree = (if false then 0 else 1) :=
  c3_success_is_and_of_validations emptyTree false runEmpty_facts.1

/-- C1 counterexample: with the integration-test target write-protected,
the run aborts during FIXING with the error propagating — the final
FileTreeResource does not equal the pre-run snapshot (the directories
created before the failure remain), and the process exit status is 1,
not 2; no restore is invoked (none exists in the code). -/
theorem c1_counterexample :
    (runFullUpgrade fx_tLock).result = Except.error "PermissionError" ∧
    (runFullUpgrade fx_tLock).finalTree ≠ (runFullUpgrade fx_tLock).backup ∧
    mainExit fx_tLock = 1 ∧ mainExit fx_tLock ≠ 2 := by
  obtain ⟨h1, h2, h3⟩ := runLocked_facts
  have hx := mainExit_of_err h1
  refine ⟨h1, ?_, hx, ?_⟩
  · rw [h2, h3]
    decide
  · rw [hx]
    decide

/-- C1 (amended): an unrecoverable error during the fix phase propagates
out of `run_full_upgrade` uncaught: the run ends in the error state with
process exit status 1 (the unhandled-exception status), never 2 — the
code defines no `ROLLED_BACK` state and no restore, and the
FileTreeResource keeps the modifications applied before the failure. -/
theorem c1_amended_error_propagates (t : FileTree) :
    mainExit t ≠ 2 ∧
    (∀ e, (runFullUpgrade t).result = Except.error e → mainExit t = 1) := by
  constructor
  · intro hc
    rcases hr : (runFullUpgrade t).result with e | b
    · rw [mainExit_of_err hr] at hc
      simp at hc
    · rw [mainExit_of_ok hr] at hc
      cases b <;> simp at hc
  · intro e h
    exact mainExit_of_err h

/-- C1 amended witness: instantiated on the write-protected scenario. -/
theorem c1_amended_error_propagates_witness :
    mainExit fx_tLock ≠ 2 ∧ mainExit fx_tLock = 1 :=
  ⟨(c1_amended_error_propagates fx_tLock).1,
   (c1_amended_error_propagates fx_tLock).2 "PermissionError" runLocked_facts.1⟩

/-- C2 counterexample: the full run on the empty tree completes with
`Except.ok false`, the sum of `fixedCount` over all agents is 8, but
the modification ledger holds 24 entries — the claimed equality fails. -/
theorem c2_counterexample :
    (runFullUpgrade emptyTree).result = Except.ok false ∧
    sumFixed (runFullUpgrade emptyTree) = 8 ∧
    ledgerCount (runFullUpgrade emptyTree) = 24 ∧
    ledgerCount (runFullUpgrade emptyTree) ≠ sumFixed (runFullUpgrade emptyTree) := by
  obtain ⟨h1, -, h3⟩ := runEmpty_facts
  have hs : sumFixed (runFullUpgrade emptyTree) = 8 := by
    unfold sumFixed
    rw [h3]
    rfl
  have hl : ledgerCount (runFullUpgrade emptyTree) = 24 := by
    unfold ledgerCount
    rw [h3]
    rfl
  refine ⟨h1, hs, hl, ?_⟩
  rw [hs, hl]
  decide

/-- C9: every agent's `validate()` is a function of the current
FileTreeResource state only — for any two agent bookkeeping states over
the same tree, it returns the same verdict. -/
theorem c9_validate_depends_only_on_tree :
    (∀ (s₁ s₂ : AgentSt) (t : FileTree),
      TestCoverageAgent.validate s₁ t = TestCoverageAgent.validate s₂ t) ∧
    (∀ (s₁ s₂ : AgentSt) (t : FileTree),
      ArchitectureAgent.validate s₁ t = ArchitectureAgent.validate s₂ t) ∧
    (∀ (s₁ s₂ : AgentSt) (t : FileTree),
      SecurityAgent.validate s₁ t = SecurityAgent.validate s₂ t) ∧
    (∀ (s₁ s₂ : AgentSt) (t : FileTree),
      PerformanceAgent.validate s₁ t = PerformanceAgent.validate s₂ t) ∧
    (∀ (s₁ s₂ : AgentSt) (t : FileTree),
      DocumentationAgent.validate s₁ t = DocumentationAgent.validate s₂ t) :=
  ⟨fun _ _ _ => rfl, fun _ _ _ => rfl, fun _ _ _ => rfl,
   fun _ _ _ => rfl, fun _ _ _ => rfl⟩

/-- C6: with `--dry-run` only the analysis phase executes — the project
tree is unchanged, the modification log stays empty, and no backup is
created, whatever the remaining upgrade phases would have done. -/
theorem c6_dry_run_pure (rest : Elite.Core → Elite.Core) (args : Elite.Args)
    (t : FileTree) (h : args.dry_run = true) :
    (Elite.eliteMain rest args t).core.tree = t ∧
    (Elite.eliteMain rest args t).core.modifications_log = [] ∧
    (Elite.eliteMain rest args t).backup = none := by
  simp [Elite.eliteMain, h, Elite.analyze_project_structure]

/-- C6 witness: dry run over the empty tree. -/
theorem c6_dry_run_pure_witness :
    (Elite.eliteMain id ⟨true, false⟩ emptyTree).core.tree = emptyTree ∧
    (Elite.eliteMain id ⟨true, false⟩ emptyTree).core.modifications_log = [] ∧
    (Elite.eliteMain id ⟨true, false⟩ emptyTree).backup = none :=
  c6_dry_run_pure id ⟨true, false⟩ emptyTree rfl

/-- C7: invoking the CLI with `--skip-backup` (and not `--dry-run`) still
creates the full backup copy of the project tree — the flag is parsed
but never consulted, contradicting its own help text. -/
theorem c7_skip_backup_is_ignored (rest : Elite.Core → Elite.Core) (t : FileTree) :
    (Elite.eliteMain rest ⟨false, true⟩ t).backup = some t := by
  simp [Elite.eliteMain, Elite.run_full_upgrade, Elite.create_backup]

theorem pairwise_of_const_phase {l : List Event} {k : Nat}
    (h : ∀ e ∈ l, phaseOf e = k) :
    l.Pairwise (fun a b => phaseOf a ≤ phaseOf b) := by
  induction l with
  | nil => exact List.Pairwise.nil
  | cons x xs ih =>
    refine List.Pairwise.cons ?_ (ih fun e he => h e (List.mem_cons_of_mem _ he))
    intro b hb
    rw [h x (List.mem_cons_self _ _), h b (List.mem_cons_of_mem _ hb)]

theorem analyzeEvents_phase {l : List (AgentSpec × List Issue)} {e : Event}
    (h : e ∈ l.map (fun x => Event.analyzed x.1.name)) : phaseOf e = 0 := by
  rcases List.mem_map.mp h with ⟨x, -, rfl⟩
  rfl

theorem fixEvents_phase {runs : List AgentRun} {e : Event}
    (h : e ∈ runs.flatMap (fun r => r.mods.map (fun m => Event.modRecorded r.name m))) :
    phaseOf e = 1 := by
  rcases List.mem_flatMap.mp h with ⟨r, -, hm⟩
  rcases List.mem_map.mp hm with ⟨m, -, rfl⟩
  rfl

theorem valEvents_phase {vals : List Bool} {e : Event}
    (h : e ∈ (roster.zip vals).map (fun x => Event.validated x.1.name x.2)) :
    phaseOf e = 2 := by
  rcases List.mem_map.mp h with ⟨x, -, rfl⟩
  rfl

/-- C4: the run's event sequence is globally phase-ordered — every
analysis event precedes every recorded Modification, and every recorded
Modification precedes every validation event; the three phases are run
as strictly sequential loops. -/
theorem c4_phase_barrier (t : FileTree) :
    ((runFullUpgrade t).trace).Pairwise (fun a b => phaseOf a ≤ phaseOf b) := by
  rcases hfp : fixPhase (analysesOf t) t with ⟨runs, tF, err⟩
  have hA : ∀ e ∈ (analysesOf t).map (fun x => Event.analyzed x.1.name),
      phaseOf e = 0 := fun e he => analyzeEvents_phase he
  have hF : ∀ e ∈ runs.flatMap (fun r => r.mods.map (fun m => Event.modRecorded r.name m)),
      phaseOf e = 1 := fun e he => fixEvents_phase he
  cases err with
  | some e =>
    have htr : (runFullUpgrade t).trace =
        (analysesOf t).map (fun x => Event.analyzed x.1.name) ++
        runs.flatMap (fun r => r.mods.map (fun m => Event.modRecorded r.name m)) := by
      simp [runFullUpgrade, hfp]
    rw [htr, List.pairwise_append]
    refine ⟨pairwise_of_const_phase hA, pairwise_of_const_phase hF, ?_⟩
    intro a ha b hb
    rw [hA a ha, hF b hb]
    omega
  | none =>
    have hV : ∀ e ∈ (roster.zip (valsOf runs tF)).map
        (fun x => Event.validated x.1.name x.2), phaseOf e = 2 :=
      fun e he => valEvents_phase he
    have htr : (runFullUpgrade t).trace =
        (analysesOf t).map (fun x => Event.analyzed x.1.name) ++
        (runs.flatMap (fun r => r.mods.map (fun m => Event.modRecorded r.name m)) ++
         (roster.zip (valsOf runs tF)).map (fun x => Event.validated x.1.name x.2)) := by
      simp only [runFullUpgrade, hfp]
      rcases hw : writeText report_path
          (reportContent (allValidOf (valsOf runs tF))
            ((runs.map (fun r => r.mods.length)).sum)) ⟨tF, []⟩ with ⟨s', res⟩
      cases res <;> (rw [hw]; rfl)
    rw [htr, List.pairwise_append]
    refine ⟨pairwise_of_const_phase hA, ?_, ?_⟩
    · rw [List.pairwise_append]
      refine ⟨pairwise_of_const_phase hF, pairwise_of_const_phase hV, ?_⟩
      intro a ha b hb
      rw [hF a ha, hV b hb]
      omega
    · intro a ha b hb
      rw [hA a ha]
      rcases List.mem_append.mp hb with hb' | hb'
      · rw [hF b hb']
        omega
      · rw [hV b hb']
        omega

/-- C10: the agent-run records of a run are exactly what the fixing
phase produced over the analyses, and the fixing phase never invokes
an agent's `fix` when its analysis reported no issues — that agent's
record has no outcome, no recorded Modifications, and an unchanged
tree across its slot (so none of the unconditional artifacts are
generated either). -/
theorem c10_empty_analysis_skips_fix :
    (∀ t : FileTree, (runFullUpgrade t).agentRuns = (fixPhase (analysesOf t) t).1) ∧
    (∀ (entries : List (AgentSpec × List Issue)) (t : FileTree) (r : AgentRun),
      r ∈ (fixPhase entries t).1 → r.issues = [] →
      r.outcome = none ∧ r.mods = [] ∧ r.treeAfter = r.treeBefore) := by
  constructor
  · intro t
    rcases hfp : fixPhase (analysesOf t) t with ⟨runs, tF, err⟩
    cases err with
    | some e =>
      rw [(run_err_facts hfp).2.2.2.1]
    | none =>
      by_cases hw : report_path ∈ tF.locked
      · rw [(run_wfail_result hfp hw).2]
      · rw [(run_ok_facts hfp hw).2.2.1]
  · intro entries
    induction entries with
    | nil =>
      intro t r hr _
      simp [fixPhase] at hr
    | cons p rest ih =>
      rcases p with ⟨a, iss⟩
      intro t r hr hriss
      by_cases he : iss.isEmpty = true
      · rw [fixPhase_skip he] at hr
        rcases List.mem_cons.mp hr with rfl | hr'
        · exact ⟨rfl, rfl, rfl⟩
        · exact ih t r hr' hriss
      · have hne : iss.isEmpty = false := Bool.eq_false_iff.mpr he
        rcases hfx : a.fix iss ⟨t, []⟩ with ⟨⟨tr, ms⟩, res⟩
        cases res with
        | ok o =>
          rw [fixPhase_cons_ok hfx hne] at hr
          rcases List.mem_cons.mp hr with rfl | hr'
          · exfalso
            rw [show iss = [] from hriss] at hne
            exact absurd hne (by simp)
          · exact ih tr r hr' hriss
        | error e =>
          rw [fixPhase_cons_err hfx hne] at hr
          rcases List.mem_singleton.mp hr with rfl
          exfalso
          rw [show iss = [] from hriss] at hne
          exact absurd hne (by simp)

/-- C10 witness: the fixing phase over a roster entry whose analysis
returned no issues yields the untouched skip record. -/
theorem c10_empty_analysis_skips_fix_witness :
    (runFullUpgrade emptyTree).agentRuns =
      (fixPhase (analysesOf emptyTree) emptyTree).1 ∧
    ((⟨"DocumentationAgent", [], emptyTree, emptyTree, [], none⟩ : AgentRun).outcome = none ∧
     (⟨"DocumentationAgent", [], emptyTree, emptyTree, [], none⟩ : AgentRun).mods = [] ∧
     (⟨"DocumentationAgent", [], emptyTree, emptyTree, [], none⟩ : AgentRun).treeAfter =
       (⟨"DocumentationAgent", [], emptyTree, emptyTree, [], none⟩ : AgentRun).treeBefore) :=
  ⟨c10_empty_analysis_skips_fix.1 emptyTree,
   c10_empty_analysis_skips_fix.2 [(docSpec, [])] emptyTree
     ⟨"DocumentationAgent", [], emptyTree, emptyTree, [], none⟩
     (by rw [fixPhase_skip (by rfl), fixPhase_nil]; exact List.mem_cons_self _ _) rfl⟩

/-!
Idempotence analysis of `TestCoverageAgent.fix` on a directory issue.
-/

theorem contains_mem_iff {l : List Path} {x : Path} :
    l.contains x = true ↔ x ∈ l := by
  simp [List.contains, List.elem_eq_mem]

theorem insertDir_contains_of {acc : List Path} {x : Path} (d : Path)
    (h : acc.contains x = true) : (insertDir acc d).contains x = true := by
  unfold insertDir
  split
  · exact h
  · rw [contains_mem_iff] at h ⊢
    exact List.mem_append_left _ h

theorem insertDir_contains_self (acc : List Path) (d : Path) :
    (insertDir acc d).contains d = true := by
  unfold insertDir
  split
  · assumption
  · rw [contains_mem_iff]
    exact List.mem_append_right _ (List.mem_singleton_self d)

theorem foldl_insertDir_contains_of (ds : List Path) {acc : List Path} {x : Path}
    (h : acc.contains x = true) : (ds.foldl insertDir acc).contains x = true := by
  induction ds generalizing acc with
  | nil => exact h
  | cons d rest ih => exact ih (insertDir_contains_of d h)

theorem foldl_insertDir_contains_mem (ds : List Path) (acc : List Path) {d : Path}
    (h : d ∈ ds) : (ds.foldl insertDir acc).contains d = true := by
  induction ds generalizing acc with
  | nil => cases h
  | cons x rest ih =>
    rcases List.mem_cons.mp h with rfl | h'
    · exact foldl_insertDir_contains_of rest (insertDir_contains_self acc d)
    · exact ih (insertDir acc x) h'

theorem insertDir_noop {acc : List Path} {d : Path} (h : acc.contains d = true) :
    insertDir acc d = acc := by
  unfold insertDir
  rw [if_pos h]

theorem foldl_insertDir_noop {ds acc : List Path}
    (h : ∀ d ∈ ds, acc.contains d = true) : ds.foldl insertDir acc = acc := by
  induction ds with
  | nil => rfl
  | cons x rest ih =>
    rw [List.foldl_cons, insertDir_noop (h x (List.mem_cons_self _ _))]
    exact ih fun d hd => h d (List.mem_cons_of_mem _ hd)

theorem registerDirs_dirs_mono {t : FileTree} {x : Path} (p : Path)
    (h : t.dirs.contains x = true) : (registerDirs t p).dirs.contains x = true :=
  foldl_insertDir_contains_of _ h

theorem registerDirs_contains_prefixes (t : FileTree) (p : Path) :
    ∀ q ∈ pathPrefixes p, (registerDirs t p).dirs.contains q = true :=
  fun _ hq => foldl_insertDir_contains_mem _ _ hq

theorem registerDirs_noop {t : FileTree} {p : Path}
    (h : ∀ q ∈ pathPrefixes p, t.dirs.contains q = true) : registerDirs t p = t := by
  unfold registerDirs
  rw [foldl_insertDir_noop h]

theorem lookupFile_setFile_self (fs : List (Path × String)) (p : Path) (c : String) :
    lookupFile (setFile fs p c) p = some (p, c) := by
  induction fs with
  | nil => simp [setFile, lookupFile]
  | cons x rest ih =>
    rcases x with ⟨q, d⟩
    unfold setFile
    split
    · simp [lookupFile]
    · unfold lookupFile at ih ⊢
      rw [List.find?_cons]
      split
      · next hq => exact absurd (of_decide_eq_true hq) (by assumption)
      · exact ih

theorem lookupFile_setFile_other (fs : List (Path × String)) (p : Path) (c : String)
    {q : Path} (h : q ≠ p) : lookupFile (setFile fs p c) q = lookupFile fs q := by
  induction fs with
  | nil => simp [setFile, lookupFile, Ne.symm h]
  | cons x rest ih =>
    rcases x with ⟨r, d⟩
    unfold setFile
    split
    · next hr =>
      subst hr
      unfold lookupFile
      rw [List.find?_cons, List.find?_cons]
      simp [Ne.symm h]
    · unfold lookupFile at ih ⊢
      rw [List.find?_cons, List.find?_cons]
      split
      · rfl
      · exact ih

theorem setFile_noop {fs : List (Path × String)} {p : Path} {c : String}
    (h : lookupFile fs p = some (p, c)) : setFile fs p c = fs := by
  induction fs with
  | nil => simp [lookupFile] at h
  | cons x rest ih =>
    rcases x with ⟨q, d⟩
    unfold lookupFile at h
    rw [List.find?_cons] at h
    unfold setFile
    split
    · next hq =>
      subst hq
      simp at h
      rw [h]
    · next hq =>
      split at h
      · next hq' => exact absurd (of_decide_eq_true hq') hq
      · rw [ih h]

theorem applyGen_dirs_mono {t : FileTree} {x : Path} (p : Path) (c : String)
    (h : t.dirs.contains x = true) : (applyGen t p c).dirs.contains x = true :=
  registerDirs_dirs_mono _ h

theorem applyGen_contains_prefixes (t : FileTree) (p : Path) (c : String) :
    ∀ q ∈ pathPrefixes p.dropLast, (applyGen t p c).dirs.contains q = true :=
  registerDirs_contains_prefixes t p.dropLast

theorem applyGen_lookup_self (t : FileTree) (p : Path) (c : String) :
    lookupFile (applyGen t p c).files p = some (p, c) :=
  lookupFile_setFile_self _ p c

theorem applyGen_lookup_other (t : FileTree) (p : Path) (c : String)
    {q : Path} (h : q ≠ p) :
    lookupFile (applyGen t p c).files q = lookupFile t.files q :=
  lookupFile_setFile_other _ p c h

theorem applyGen_noop {t : FileTree} {p : Path} {c : String}
    (hd : ∀ q ∈ pathPrefixes p.dropLast, t.dirs.contains q = true)
    (hf : lookupFile t.files p = some (p, c)) : applyGen t p c = t := by
  unfold applyGen
  rw [registerDirs_noop hd, setFile_noop hf]

/-- Both generated-artifact targets and the registered prefixes survive
the later artifact writes, so re-running the three generators (and the
directory registration) on the result is the identity. -/
theorem tcGens_registerDirs_idem (t : FileTree) (p : Path) :
    registerDirs (tcGens (registerDirs t p)) p = tcGens (registerDirs t p) ∧
    tcGens (tcGens (registerDirs t p)) = tcGens (registerDirs t p) := by
  have hIntUi : TestCoverageAgent.integration_test_path ≠ TestCoverageAgent.ui_test_path := by
    decide
  have hIntPerf : TestCoverageAgent.integration_test_path ≠ TestCoverageAgent.perf_test_path := by
    decide
  have hUiPerf : TestCoverageAgent.ui_test_path ≠ TestCoverageAgent.perf_test_path := by
    decide
  set t1 := registerDirs t p with ht1
  constructor
  · refine registerDirs_noop fun q hq => ?_
    exact applyGen_dirs_mono _ _ (applyGen_dirs_mono _ _ (applyGen_dirs_mono _ _
      (registerDirs_contains_prefixes t p q hq)))
  · have hInt : lookupFile (tcGens t1).files TestCoverageAgent.integration_test_path =
        some (TestCoverageAgent.integration_test_path, TestCoverageAgent.integration_test) := by
      unfold tcGens
      rw [applyGen_lookup_other _ _ _ hIntPerf, applyGen_lookup_other _ _ _ hIntUi,
        applyGen_lookup_self]
    have hIntD : ∀ q ∈ pathPrefixes TestCoverageAgent.integration_test_path.dropLast,
        (tcGens t1).dirs.contains q = true := by
      intro q hq
      exact applyGen_dirs_mono _ _ (applyGen_dirs_mono _ _
        (applyGen_contains_prefixes t1 _ _ q hq))
    have h1 : applyGen (tcGens t1) TestCoverageAgent.integration_test_path
        TestCoverageAgent.integration_test = tcGens t1 := applyGen_noop hIntD hInt
    have hUi : lookupFile (tcGens t1).files TestCoverageAgent.ui_test_path =
        some (TestCoverageAgent.ui_test_path, TestCoverageAgent.ui_test) := by
      unfold tcGens
      rw [applyGen_lookup_other _ _ _ hUiPerf, applyGen_lookup_self]
    have hUiD : ∀ q ∈ pathPrefixes TestCoverageAgent.ui_test_path.dropLast,
        (tcGens t1).dirs.contains q = true := by
      intro q hq
      exact applyGen_dirs_mono _ _ (applyGen_contains_prefixes _ _ _ q hq)
    have h2 : applyGen (tcGens t1) TestCoverageAgent.ui_test_path
        TestCoverageAgent.ui_test = tcGens t1 := applyGen_noop hUiD hUi
    have hPerf : lookupFile (tcGens t1).files TestCoverageAgent.perf_test_path =
        some (TestCoverageAgent.perf_test_path, TestCoverageAgent.perf_test) := by
      unfold tcGens
      rw [applyGen_lookup_self]
    have hPerfD : ∀ q ∈ pathPrefixes TestCoverageAgent.perf_test_path.dropLast,
        (tcGens t1).dirs.contains q = true := by
      intro q hq
      exact applyGen_contains_prefixes _ _ _ q hq
    have h3 : applyGen (tcGens t1) TestCoverageAgent.perf_test_path
        TestCoverageAgent.perf_test = tcGens t1 := applyGen_noop hPerfD hPerf
    show applyGen (applyGen (applyGen (tcGens t1)
        TestCoverageAgent.integration_test_path TestCoverageAgent.integration_test)
        TestCoverageAgent.ui_test_path TestCoverageAgent.ui_test)
        TestCoverageAgent.perf_test_path TestCoverageAgent.perf_test = tcGens t1
    rw [h1, h2, h3]

/-- Symbolic execution of `TestCoverageAgent.fix` on one directory
issue over an unrestricted filesystem: the directory and the three
artifact targets are written, and four ledger entries are appended. -/
theorem tc_fix_dir_run (d : List Path) (f : List (Path × String))
    (ms : List Modification) (p : Path) :
    TestCoverageAgent.fix [dirIssue p] ⟨⟨d, f, []⟩, ms⟩ =
      (⟨tcGens (registerDirs ⟨d, f, []⟩ p), tcDirMods ms p⟩, Except.ok ⟨1, 1⟩) := rfl

theorem registerDirs_locked_pres {t : FileTree} {p : Path} :
    (registerDirs t p).locked = t.locked := rfl

theorem applyGen_locked_pres {t : FileTree} {p : Path} {c : String} :
    (applyGen t p c).locked = t.locked := rfl

theorem tcGens_locked_pres {d : List Path} {f : List (Path × String)} {p : Path} :
    (tcGens (registerDirs ⟨d, f, []⟩ p)).locked = [] := by
  rw [tcGens, applyGen_locked_pres, applyGen_locked_pres, applyGen_locked_pres,
    registerDirs_locked_pres]

/-- `tc_fix_dir_run` restated for any tree with an unrestricted
filesystem. -/
theorem tc_fix_dir_run_of_locked (t : FileTree) (ms : List Modification)
    (p : Path) (hl : t.locked = []) :
    TestCoverageAgent.fix [dirIssue p] ⟨t, ms⟩ =
      (⟨tcGens (registerDirs t p), tcDirMods ms p⟩, Except.ok ⟨1, 1⟩) := by
  rcases t with ⟨d, f, lk⟩
  have : lk = [] := hl
  subst this
  exact tc_fix_dir_run d f ms p

/-- C5 (amended): on a filesystem with no write-protected paths, calling
`fix` twice on the same `missing_test_directory` Issue leaves the
FileTreeResource content equal to what a single call produces, but each
call appends its four ledger entries again: the first call grows the
ledger by 4 and the second call by 4 more (double, not equal).  The
repeat call is re-applied and re-recorded, not detected as already
done. -/
theorem c5_amended_tree_idempotent_ledger_doubles (d : List Path)
    (f : List (Path × String)) (ms : List Modification) (p : Path) :
    TestCoverageAgent.fix [dirIssue p] ⟨⟨d, f, []⟩, ms⟩ =
      (⟨tcGens (registerDirs ⟨d, f, []⟩ p), tcDirMods ms p⟩, Except.ok ⟨1, 1⟩) ∧
    TestCoverageAgent.fix [dirIssue p]
        ⟨tcGens (registerDirs ⟨d, f, []⟩ p), tcDirMods ms p⟩ =
      (⟨tcGens (registerDirs ⟨d, f, []⟩ p), tcDirMods (tcDirMods ms p) p⟩,
       Except.ok ⟨1, 1⟩) ∧
    (tcDirMods ms p).length = ms.length + 4 ∧
    (tcDirMods (tcDirMods ms p) p).length = ms.length + 8 := by
  obtain ⟨hr, hg⟩ := tcGens_registerDirs_idem (⟨d, f, []⟩ : FileTree) p
  have hL : (tcGens (registerDirs ⟨d, f, []⟩ p)).locked = [] := tcGens_locked_pres
  have e := tc_fix_dir_run_of_locked (tcGens (registerDirs ⟨d, f, []⟩ p))
    (tcDirMods ms p) p hL
  rw [hr, hg] at e
  refine ⟨tc_fix_dir_run d f ms p, e, ?_, ?_⟩ <;>
    simp [tcDirMods, List.length_append]

/-- C5 counterexample: fixing the same `missing_test_directory` Issue
twice on the empty project leaves 8 ledger entries where a single call
leaves 4 — the claimed ledger-length equality fails (the tree content
is indeed unchanged, but every entry is recorded again). -/
theorem c5_counterexample :
    (TestCoverageAgent.fix [dirIssue ["app", "src", "test"]]
        (TestCoverageAgent.fix [dirIssue ["app", "src", "test"]]
          ⟨emptyTree, []⟩).1).1.mods.length = 8 ∧
    (TestCoverageAgent.fix [dirIssue ["app", "src", "test"]]
        ⟨emptyTree, []⟩).1.mods.length = 4 ∧
    (8 : Nat) ≠ 4 := by
  refine ⟨?_, ?_, by decide⟩ <;> rfl

/-- C8 (amended): in `SecurityAgent.fix`, a write failure while fixing a
single issue is caught inside the per-issue helper and does not abort
the remaining issues — but `fixed_count` is incremented regardless, so
the failure is NOT surfaced as `fixedCount < totalCount`: the outcome
reports every issue as fixed, the protected file keeps its insecure
content, and no ledger entry is recorded for it (only the other fixes
and the unconditional artifacts are recorded).  (In `TestCoverageAgent`
such an error is not caught at all and aborts the fix phase — see the
counterexample.) -/
theorem c8_amended_failed_write_counted_as_fixed (c : String) :
    (SecurityAgent.fix [httpIssue, obfIssue] ⟨tSec c, []⟩).2 = Except.ok ⟨2, 2⟩ ∧
    (SecurityAgent.fix [httpIssue, obfIssue] ⟨tSec c, []⟩).1.tree.readFile secFile =
      some c ∧
    (SecurityAgent.fix [httpIssue, obfIssue] ⟨tSec c, []⟩).1.mods.map
        (fun m => m.file) =
      [pathStr SecurityAgent.proguard_path, pathStr SecurityAgent.bio_path,
       pathStr SecurityAgent.enc_path] :=
  ⟨rfl, rfl, rfl⟩

/-- C8 counterexample: on a project whose only Kotlin file holds an
insecure `http://` URL but is write-protected, `SecurityAgent.fix`
swallows the write failure, leaves the file unchanged, records no
skipped fix — and still reports `fixedCount = totalCount = 2`, so the
failure is not reflected as `fixedCount < totalCount`.  Moreover, the
same kind of failure inside `TestCoverageAgent.fix` is not caught at
all: it aborts the agent with the exception. -/
theorem c8_counterexample :
    (SecurityAgent.fix [httpIssue, obfIssue]
        ⟨tSec "val url = http://api.example.com", []⟩).2 = Except.ok ⟨2, 2⟩ ∧
    (SecurityAgent.fix [httpIssue, obfIssue]
        ⟨tSec "val url = http://api.example.com", []⟩).1.tree.readFile secFile =
      some "val url = http://api.example.com" ∧
    strHas "val url = http://api.example.com" "http://" = true ∧
    ¬ ((2 : Nat) < 2) ∧
    TestCoverageAgent.fix fx_issTC ⟨fx_tLock, []⟩ =
      (⟨fx_treeL1, fx_modsL⟩, Except.error "PermissionError") :=
  ⟨rfl, rfl, by decide, by decide, fix_step_locked⟩

/-!
Ledger accounting for `TestCoverageAgent.fix`.
-/

theorem bind_apply {α β : Type} (x : PyM α) (f : α → PyM β) (s : PyState) :
    (x >>= f) s = match x s with
      | (s₁, Except.ok a) => f a s₁
      | (s₁, Except.error e) => (s₁, Except.error e) := rfl

theorem bind_eq_ok {α β : Type} {x : PyM α} {f : α → PyM β} {s s₂ : PyState} {b : β}
    (h : (x >>= f) s = (s₂, Except.ok b)) :
    ∃ s₁ a, x s = (s₁, Except.ok a) ∧ f a s₁ = (s₂, Except.ok b) := by
  rw [bind_apply] at h
  rcases hx : x s with ⟨s₁, r⟩
  rw [hx] at h
  cases r with
  | ok a => exact ⟨s₁, a, rfl, h⟩
  | error e => simp at h

theorem mkdir_step_mods {p : Path} {s s₁ : PyState} {u : Unit}
    (h : mkdirParents p s = (s₁, Except.ok u)) : s₁.mods = s.mods := by
  have hm : (mkdirParents p s).1.mods = s.mods := rfl
  rw [h] at hm
  exact hm

theorem write_step_mods {p : Path} {c : String} {s s₁ : PyState} {u : Unit}
    (h : writeText p c s = (s₁, Except.ok u)) : s₁.mods = s.mods := by
  have hm : (writeText p c s).1.mods = s.mods := by
    unfold writeText
    split <;> rfl
  rw [h] at hm
  exact hm

theorem addMod_step_mods {f d : String} {s s₁ : PyState} {u : Unit}
    (h : addMod f d s = (s₁, Except.ok u)) : s₁.mods = s.mods ++ [⟨f, d⟩] := by
  have hm : (addMod f d s).1.mods = s.mods ++ [⟨f, d⟩] := rfl
  rw [h] at hm
  exact hm

theorem pure_eq_ok {α : Type} {a : α} {s s' : PyState} {b : α}
    (h : (pure a : PyM α) s = (s', Except.ok b)) : s' = s ∧ b = a := by
  have h' : ((s, Except.ok a) : PyState × Except String α) = (s', Except.ok b) := h
  obtain ⟨h1, h2⟩ := Prod.mk.injEq .. |>.mp h'
  exact ⟨h1.symm, (Except.ok.inj h2).symm⟩

theorem extract_package_state (t : FileTree) (src : Path) (s : PyState) :
    (TestCoverageAgent.extract_package t src s).1 = s := by
  unfold TestCoverageAgent.extract_package
  rcases hr : t.readFile src with _ | content
  · simp only [hr]
    by_cases hp : List.take 4 src = ["app", "src", "main", "java"]
    · rw [if_pos hp]
      rfl
    · rw [if_neg hp]
      rfl
  · simp only [hr]
    rcases hf : List.find? (fun l => strStarts (strTrim l) "package ")
        (strSplit content "\n") with _ | l
    · simp only [hf]
      by_cases hp : List.take 4 src = ["app", "src", "main", "java"]
      · rw [if_pos hp]
        rfl
      · rw [if_neg hp]
        rfl
    · simp only [hf]
      rfl

theorem generate_test_content_state {src : Path} {s s₁ : PyState} {c : String}
    (h : TestCoverageAgent.generate_test_content src s = (s₁, Except.ok c)) :
    s₁ = s := by
  unfold TestCoverageAgent.generate_test_content at h
  obtain ⟨s₀, t, hg, h2⟩ := bind_eq_ok h
  obtain ⟨s₂, pkg, he, h3⟩ := bind_eq_ok h2
  have e0 : s₀ = s := by
    have hx : (getTree s).1 = s := rfl
    rw [hg] at hx
    exact hx
  have e2 : s₂ = s₀ := by
    have hx := extract_package_state t src s₀
    rw [he] at hx
    exact hx
  rw [(pure_eq_ok h3).1, e2, e0]

theorem gen_integration_mods {s s' : PyState} {u : Unit}
    (h : TestCoverageAgent.generate_integration_tests s = (s', Except.ok u)) :
    s'.mods.length = s.mods.length + 1 := by
  unfold TestCoverageAgent.generate_integration_tests at h
  obtain ⟨s₁, _, hmk, h⟩ := bind_eq_ok h
  obtain ⟨s₂, _, hwr, h⟩ := bind_eq_ok h
  rw [addMod_step_mods h, write_step_mods hwr, mkdir_step_mods hmk,
    List.length_append]
  rfl

theorem gen_ui_mods {s s' : PyState} {u : Unit}
    (h : TestCoverageAgent.generate_ui_tests s = (s', Except.ok u)) :
    s'.mods.length = s.mods.length + 1 := by
  unfold TestCoverageAgent.generate_ui_tests at h
  obtain ⟨s₁, _, hmk, h⟩ := bind_eq_ok h
  obtain ⟨s₂, _, hwr, h⟩ := bind_eq_ok h
  rw [addMod_step_mods h, write_step_mods hwr, mkdir_step_mods hmk,
    List.length_append]
  rfl

theorem gen_perf_mods {s s' : PyState} {u : Unit}
    (h : TestCoverageAgent.generate_performance_tests s = (s', Except.ok u)) :
    s'.mods.length = s.mods.length + 1 := by
  unfold TestCoverageAgent.generate_performance_tests at h
  obtain ⟨s₁, _, hmk, h⟩ := bind_eq_ok h
  obtain ⟨s₂, _, hwr, h⟩ := bind_eq_ok h
  rw [addMod_step_mods h, write_step_mods hwr, mkdir_step_mods hmk,
    List.length_append]
  rfl

theorem tc_fixLoop_spec (issues : List Issue) :
    ∀ (n : Nat) (s s' : PyState) (m : Nat),
      TestCoverageAgent.fixLoop issues n s = (s', Except.ok m) →
      ∃ k, m = n + k ∧ s'.mods.length = s.mods.length + k := by
  induction issues with
  | nil =>
    intro n s s' m h
    obtain ⟨h1, h2⟩ := pure_eq_ok (s := s) (a := n) h
    exact ⟨0, by omega, by simp [h1]⟩
  | cons issue rest ih =>
    intro n s s' m h
    unfold TestCoverageAgent.fixLoop at h
    by_cases h1 : issue.type = "missing_test_directory"
    · rw [if_pos h1] at h
      obtain ⟨s₁, _, hmk, h⟩ := bind_eq_ok h
      obtain ⟨s₂, _, had, h⟩ := bind_eq_ok h
      obtain ⟨k, hk1, hk2⟩ := ih (n + 1) s₂ s' m h
      refine ⟨k + 1, by omega, ?_⟩
      rw [hk2, addMod_step_mods had, mkdir_step_mods hmk, List.length_append,
        List.length_singleton]
      omega
    · by_cases h2 : issue.type = "missing_test_file"
      · rw [if_neg h1, if_pos h2] at h
        obtain ⟨s₁, content, hgc, hh1⟩ := bind_eq_ok h
        obtain ⟨s₂, u1, hmk, hh2⟩ := bind_eq_ok hh1
        obtain ⟨s₃, u2, hwr, hh3⟩ := bind_eq_ok hh2
        obtain ⟨s₄, u3, had, hh4⟩ := bind_eq_ok hh3
        obtain ⟨k, hk1, hk2⟩ := ih (n + 1) s₄ s' m hh4
        refine ⟨k + 1, by omega, ?_⟩
        have e1 : s₁ = s := generate_test_content_state hgc
        rw [hk2, addMod_step_mods had, write_step_mods hwr, mkdir_step_mods hmk,
          e1, List.length_append, List.length_singleton]
        omega
      · rw [if_neg h1, if_neg h2] at h
        obtain ⟨k, hk1, hk2⟩ := ih n s s' m h
        exact ⟨k, hk1, hk2⟩

/-- C2 (amended): the run-wide ledger-count equality fails; the true
per-agent accounting for the cited `TestCoverageAgent.fix` is that a
completed fix phase appends exactly `fixedCount` issue entries PLUS
three unconditional artifact entries (integration, UI and benchmark
test suites), while `totalCount` is the number of issues passed in. -/
theorem c2_amended_tc_ledger_accounting (issues : List Issue) (s s' : PyState)
    (o : FixOutcome) (h : TestCoverageAgent.fix issues s = (s', Except.ok o)) :
    s'.mods.length = s.mods.length + o.fixed + 3 ∧ o.total = issues.length := by
  unfold TestCoverageAgent.fix at h
  obtain ⟨s₁, n, hloop, hh1⟩ := bind_eq_ok h
  obtain ⟨s₂, u1, hg1, hh2⟩ := bind_eq_ok hh1
  obtain ⟨s₃, u2, hg2, hh3⟩ := bind_eq_ok hh2
  obtain ⟨s₄, u3, hg3, hh4⟩ := bind_eq_ok hh3
  obtain ⟨hs', ho⟩ := pure_eq_ok hh4
  obtain ⟨k, hk1, hk2⟩ := tc_fixLoop_spec issues 0 s s₁ n hloop
  have l1 := gen_integration_mods hg1
  have l2 := gen_ui_mods hg2
  have l3 := gen_perf_mods hg3
  constructor
  · rw [hs', ho]
    show s₄.mods.length = s.mods.length + n + 3
    omega
  · rw [ho]

/-- C2 amended witness: the concrete fix of the empty project's two
missing-test-directory issues appended 2 + 3 = 5 ledger entries. -/
theorem c2_amended_tc_ledger_accounting_witness :
    (⟨fx_treeA1, fx_modsTC⟩ : PyState).mods.length =
      (⟨emptyTree, []⟩ : PyState).mods.length + (2 : Nat) + 3 ∧
    (2 : Nat) = fx_issTC.length :=
  c2_amended_tc_ledger_accounting fx_issTC ⟨emptyTree, []⟩ ⟨fx_treeA1, fx_modsTC⟩
    ⟨2, 2⟩ fix_step_tc
